import Mathlib

/-!
Verification development for the Mocker repository (src/Mocker.py, src/dev.py).

The Python code is shallowly embedded: JSON documents become an inductive
`Json` tree, Python dicts become association lists in insertion order,
Python floats become rationals (an idealisation: float rounding error is
not modelled, but `round(x, n)` is modelled exactly as round-to-nearest,
which agrees with Python's banker's rounding except at exact ties and is
weakly monotone like it), and every call to the `random` module becomes an
explicit oracle argument constrained by the hypotheses of the theorems
(`random.uniform(a, b)` with `a ≤ b` returns `a + (b - a) * t` for some
`t ∈ [0, 1]`; `random.randint(a, b)` returns some integer in `[a, b]`).
Code that can raise a Python exception is embedded in `Except String`.
-/

/-- JSON value tree: Python dicts become `obj` with entries kept in
insertion order, lists become `arr`, numbers become rationals. -/
inductive Json where
  | str : String → Json
  | num : ℚ → Json
  | bool : Bool → Json
  | null : Json
  | arr : List Json → Json
  | obj : List (String × Json) → Json

mutual

/-- Boolean structural equality on `Json` (Python `==` on parsed JSON). -/
def jsonBeq : Json → Json → Bool
  | .str a, .str b => a = b
  | .num a, .num b => a = b
  | .bool a, .bool b => a = b
  | .null, .null => true
  | .arr a, .arr b => jsonBeqList a b
  | .obj a, .obj b => jsonBeqEntries a b
  | _, _ => false

/-- Elementwise `jsonBeq` on lists. -/
def jsonBeqList : List Json → List Json → Bool
  | [], [] => true
  | x :: xs, y :: ys => jsonBeq x y && jsonBeqList xs ys
  | _, _ => false

/-- Elementwise `jsonBeq` on entry lists, comparing keys as well. -/
def jsonBeqEntries : List (String × Json) → List (String × Json) → Bool
  | [], [] => true
  | (k, v) :: xs, (k', v') :: ys =>
      k = k' && jsonBeq v v' && jsonBeqEntries xs ys
  | _, _ => false

end

mutual

def jsonBeq_iff : ∀ a b : Json, jsonBeq a b = true ↔ a = b
  | .str a, b => by
      cases b <;> simp [jsonBeq]
  | .num a, b => by
      cases b <;> simp [jsonBeq]
  | .bool a, b => by
      cases b <;> simp [jsonBeq]
  | .null, b => by
      cases b <;> simp [jsonBeq]
  | .arr a, b => by
      cases b <;> simp [jsonBeq, jsonBeqList_iff a]
  | .obj a, b => by
      cases b <;> simp [jsonBeq, jsonBeqEntries_iff a]

def jsonBeqList_iff : ∀ a b : List Json, jsonBeqList a b = true ↔ a = b
  | [], b => by cases b <;> simp [jsonBeqList]
  | x :: xs, b => by
      cases b with
      | nil => simp [jsonBeqList]
      | cons y ys =>
          simp [jsonBeqList, jsonBeq_iff x y, jsonBeqList_iff xs ys]

def jsonBeqEntries_iff :
    ∀ a b : List (String × Json), jsonBeqEntries a b = true ↔ a = b
  | [], b => by cases b <;> simp [jsonBeqEntries]
  | (k, v) :: xs, b => by
      cases b with
      | nil => simp [jsonBeqEntries]
      | cons y ys =>
          obtain ⟨k', v'⟩ := y
          simp [jsonBeqEntries, jsonBeq_iff v v', jsonBeqEntries_iff xs ys,
            and_assoc]

end

instance : DecidableEq Json := fun a b =>
  decidable_of_iff (jsonBeq a b = true) (jsonBeq_iff a b)

instance {E A : Type} [DecidableEq E] [DecidableEq A] :
    DecidableEq (Except E A) := fun x y =>
  match x, y with
  | .ok a, .ok b =>
      if h : a = b then isTrue (by rw [h])
      else isFalse (by intro he; cases he; exact h rfl)
  | .error a, .error b =>
      if h : a = b then isTrue (by rw [h])
      else isFalse (by intro he; cases he; exact h rfl)
  | .ok _, .error _ => isFalse (by intro he; cases he)
  | .error _, .ok _ => isFalse (by intro he; cases he)

/-- Python `d[k]` / `d.get(k)` on a dict embedded as an association list:
the first entry with the given key, if any. -/
def jsonGet {A : Type} (kvs : List (String × A)) (k : String) : Option A :=
  (kvs.find? (fun kv => kv.1 = k)).map (fun kv => kv.2)

/-- Python `k in d`. -/
def hasKey {A : Type} (kvs : List (String × A)) (k : String) : Bool :=
  (jsonGet kvs k).isSome

/-- Python `d[k] = v` when `k` is already a key of `d`: the value is
replaced and the entry keeps its position. -/
def setVal {A : Type} (kvs : List (String × A)) (k : String) (v : A) :
    List (String × A) :=
  kvs.map (fun kv => if kv.1 = k then (k, v) else kv)

/-- Python `d[k] = v` in general: replace in place when the key exists,
append at the end otherwise (dict insertion order semantics). -/
def upsertVal {A : Type} (kvs : List (String × A)) (k : String) (v : A) :
    List (String × A) :=
  if hasKey kvs k then setVal kvs k v else kvs ++ [(k, v)]

/-- Python `d.pop(k, None)`: remove the entry with key `k`, if present. -/
def popKey {A : Type} (kvs : List (String × A)) (k : String) : List (String × A) :=
  kvs.filter (fun kv => !(kv.1 = k))

/-- Python dict built from a key/value sequence: later occurrences of a key
overwrite the stored value in place (as in a dict comprehension). -/
def pyDictAux {A : Type} (acc : List (String × A)) : List (String × A) → List (String × A)
  | [] => acc
  | (k, v) :: rest => pyDictAux (upsertVal acc k v) rest

/-- Python dict comprehension `{k: v for (k, v) in l}`. -/
def pyDict {A : Type} (l : List (String × A)) : List (String × A) :=
  pyDictAux [] l

/-- Python `round(x, 2)` idealised over ℚ: round to the nearest multiple of
1/100 (ties upward; Python rounds ties to even, but every theorem below
uses only weak monotonicity, which both tie rules satisfy). -/
def round2 (x : ℚ) : ℚ :=
  ((⌊x * 100 + 1 / 2⌋ : ℤ) : ℚ) / 100

/-- Python `round(x, 4)` idealised over ℚ, as `round2`. -/
def round4 (x : ℚ) : ℚ :=
  ((⌊x * 10000 + 1 / 2⌋ : ℤ) : ℚ) / 10000

/-- Python `round(x, 6)` idealised over ℚ, as `round2`. -/
def round6 (x : ℚ) : ℚ :=
  ((⌊x * 1000000 + 1 / 2⌋ : ℤ) : ℚ) / 1000000

/-- Outcome of `random.uniform(a, b)` for a draw parameter `t`: Python
computes `a + (b - a) * random.random()`, so any outcome has this form
with `t ∈ [0, 1)` (reversed bounds `b < a` are accepted and give a value
between `b` and `a`). -/
def uniformDraw (a b t : ℚ) : ℚ :=
  a + (b - a) * t

/-- Outcome of `rand_float(lo, hi)` from src/Mocker.py (digits = 2):
`round(random.uniform(lo, hi), 2)`. -/
def randFloat2 (lo hi t : ℚ) : ℚ :=
  round2 (uniformDraw lo hi t)

/-- Outcome of `rand_float(lo, hi, 4)` from src/Mocker.py. -/
def randFloat4 (lo hi t : ℚ) : ℚ :=
  round4 (uniformDraw lo hi t)


/-- Generation parameters of a domain field (the optional `params` dict:
`{min, max}` or `{categories}`). -/
structure Params where
  min : Option ℚ
  max : Option ℚ
  categories : Option (List String)
deriving DecidableEq

/-- Params dict `{"min": a, "max": b}`. -/
def Params.range (a b : ℚ) : Params := ⟨some a, some b, none⟩

/-- Params dict `{"categories": l}`. -/
def Params.cats (l : List String) : Params := ⟨none, none, some l⟩

/-- Python `None` passed where a params dict is expected. -/
def noParams : Params := ⟨none, none, none⟩

/-- Value of a domain field table entry: either the usual
`{variants, description, params?}` dict, or the bare modality string used
for the `medical_images/modality` entry. -/
inductive FieldEntry where
  | info (variants : List String) (description : String) (params : Option Params)
  | modal (s : String)
deriving DecidableEq

/-- One entry of `MEDICAL_DOMAINS` from src/Mocker.py. -/
structure Domain where
  name : String
  description : String
  jsd_tokens : List String
  fields : List (String × FieldEntry)
deriving DecidableEq

/-- Python `domain["fields"].get(fid)` / `fid in domain["fields"]`. -/
def lookupField (d : Domain) (fid : String) : Option FieldEntry :=
  (d.fields.find? (fun kv => kv.1 = fid)).map (fun kv => kv.2)

/-- The `record_set_ids` selector of a fingerprint profile: the string
"all", the string "non_imaging", or an explicit id list. -/
inductive Selector where
  | all
  | nonImaging
  | ids (l : List String)
deriving DecidableEq

/-- One entry of `FINGERPRINT_PROFILES` from src/Mocker.py. -/
structure Profile where
  name : String
  record_set_ids : Selector
  extensions_to_keep : List String
  include_descriptions : Bool
  weight : ℕ
deriving DecidableEq

/-- First entry of `MEDICAL_DOMAINS` (src/Mocker.py lines 38-52). -/
def cardiology : Domain :=
  { name := "Cardiology"
    description := "Dataset focusing on cardiovascular health, including patient vitals, lab results for heart conditions, and cardiac imaging reports."
    jsd_tokens := ["cardiac", "artery", "atrial", "ventricle", "aortic", "stenosis", "echocardiogram", "hypertension", "cholesterol", "stent", "infarction", "fibrillation"]
    fields := [
      ("patient_demographics/patient_age", .info ["age", "Patient Age", "age_at_scan"] "Patient\x27s age at the time of cardiac assessment." (some (Params.range 40 95))),
      ("patient_demographics/patient_blood_type", .info ["blood_type", "Blood Group", "patient_blood_group"] "Patient\x27s blood group, relevant for surgical procedures." none),
      ("vital_signs/bmi", .info ["BMI", "body_mass_index"] "Body Mass Index, a key risk factor for heart disease." (some (Params.range 18 45))),
      ("vital_signs/blood_pressure", .info ["blood_pressure", "BP", "Systolic/Diastolic"] "Blood pressure reading (e.g., 120/80 mmHg)." (some (Params.cats ["120/80", "130/85", "140/90", "110/70"]))),
      ("lab_results/cholesterol", .info ["cholesterol", "Total Cholesterol", "CHOL_Total"] "Total cholesterol level in mg/dL." (some (Params.range 150 300))),
      ("clinical_notes/notes", .info ["Cardiology Notes", "consultation_report", "ECHO_notes"] "Clinical notes from cardiology consultations and echocardiograms." none),
      ("medical_condition/diagnosis", .info ["diagnosis", "Condition", "Primary Cardiac Diagnosis"] "Primary diagnosis related to cardiovascular disease." (some (Params.cats ["Hypertension", "Coronary Artery Disease", "Myocardial Infarction", "Heart Failure", "Arrhythmia"]))),
      ("medical_images/modality", .modal "Echocardiogram")] }

/-- Second entry of `MEDICAL_DOMAINS` (Neurology). -/
def neurology : Domain :=
  { name := "Neurology"
    description := "A collection of neurological patient data, including demographics, cognitive assessments, and brain imaging scans like MRIs."
    jsd_tokens := ["neuron", "synapse", "cognitive", "mri", "lesion", "seizure", "alzheimer", "parkinson", "stroke", "axon", "neuropathy", "cortical"]
    fields := [
      ("patient_demographics/patient_age", .info ["age", "Age at Onset", "patient_age_neuro"] "Patient\x27s age at the onset of neurological symptoms." (some (Params.range 25 90))),
      ("cognitive_assessment/moca_score", .info ["MoCA Score", "Cognitive Score", "Montreal Cognitive Assessment"] "Score from the Montreal Cognitive Assessment (MoCA), ranging from 0 to 30." (some (Params.range 5 30))),
      ("clinical_notes/notes", .info ["Neurology Progress Notes", "mri_findings_summary", "Clinical Observations"] "Detailed notes on patient\x27s neurological status and MRI findings." none),
      ("medical_condition/diagnosis", .info ["diagnosis", "Neurological Condition", "Final Diagnosis"] "Primary neurological diagnosis." (some (Params.cats ["Alzheimer\x27s Disease", "Parkinson\x27s Disease", "Multiple Sclerosis", "Stroke", "Epilepsy"]))),
      ("medical_images/modality", .modal "MRI")] }

/-- Third entry of `MEDICAL_DOMAINS` (Oncology). -/
def oncology : Domain :=
  { name := "Oncology"
    description := "Dataset containing information on cancer patients, including tumor characteristics, treatment protocols, and genetic markers."
    jsd_tokens := ["tumor", "cell", "chemotherapy", "lesion", "radiation", "stage", "grade", "biopsy", "metastatic", "carcinoma", "adenocarcinoma", "lymphoma"]
    fields := [
      ("patient_demographics/patient_age", .info ["age_at_diagnosis", "Age", "patient_age"] "Age of the patient at the time of cancer diagnosis." none),
      ("tumor_markers/tumor_size", .info ["Tumor Size (cm)", "tumor_diameter", "Lesion Size"] "The largest dimension of the primary tumor in centimeters." (some (Params.range 0.5 15))),
      ("tumor_markers/cancer_stage", .info ["Cancer Stage", "Stage", "TNM Stage"] "The stage of the cancer at diagnosis." (some (Params.cats ["Stage I", "Stage II", "Stage III", "Stage IV"]))),
      ("clinical_notes/notes", .info ["Oncology Report", "biopsy_results", "treatment_summary"] "Notes detailing biopsy results, pathology, and treatment history." none),
      ("medical_condition/diagnosis", .info ["Cancer Type", "Histology", "Oncological Diagnosis"] "The specific type of cancer." (some (Params.cats ["Breast Cancer", "Lung Cancer", "Prostate Cancer", "Colorectal Cancer", "Melanoma"]))),
      ("medical_images/modality", .modal "PET-CT")] }

/-- Fourth entry of `MEDICAL_DOMAINS` (Pulmonology). -/
def pulmonology : Domain :=
  { name := "Pulmonology"
    description := "Focuses on respiratory diseases, with data on lung function tests, patient-reported outcomes, and chest X-rays."
    jsd_tokens := ["respiratory", "lung", "bronchial", "fev1", "fvc", "spirometry", "copd", "asthma", "pleural", "inhaler", "pulmonary", "ventilation"]
    fields := [
      ("patient_demographics/patient_age", .info ["age", "patient_age"] "Patient\x27s age." none),
      ("lung_function/fev1", .info ["FEV1", "Forced Expiratory Volume 1s", "pulmonary_fev1"] "Forced Expiratory Volume in 1 second, a measure of lung function." (some (Params.range 1 5))),
      ("lung_function/fvc", .info ["FVC", "Forced Vital Capacity", "pulmonary_fvc"] "Forced Vital Capacity, a measure of lung capacity." (some (Params.range 1 6))),
      ("clinical_notes/notes", .info ["Pulmonology Notes", "chest_xray_report", "Spirometry Notes"] "Clinical notes regarding patient\x27s respiratory health and test results." none),
      ("medical_condition/diagnosis", .info ["diagnosis", "Respiratory Condition"] "Primary respiratory diagnosis." (some (Params.cats ["COPD", "Asthma", "Idiopathic Pulmonary Fibrosis", "Pneumonia"]))),
      ("medical_images/modality", .modal "X-ray")] }

/-- Fifth entry of `MEDICAL_DOMAINS` (Gastroenterology). -/
def gastroenterology : Domain :=
  { name := "Gastroenterology"
    description := "Data related to digestive system disorders, including endoscopy results, lab tests, and patient history."
    jsd_tokens := ["gastrointestinal", "endoscopy", "colon", "stomach", "liver", "hepatic", "enzyme", "colitis", "crohns", "ulcer", "biopsy", "polyp"]
    fields := [
      ("patient_demographics/patient_age", .info ["age", "patient_age_gi"] "Patient\x27s age at time of consultation." none),
      ("lab_results/liver_enzymes", .info ["Liver Function Tests", "AST/ALT", "liver_enzymes"] "Key liver enzyme levels (AST/ALT)." (some (Params.range 10 200))),
      ("clinical_notes/notes", .info ["Endoscopy Report", "GI Consult Notes", "pathology_report"] "Detailed findings from gastrointestinal procedures." none),
      ("medical_condition/diagnosis", .info ["GI Diagnosis", "condition"] "Diagnosis related to the digestive system." (some (Params.cats ["Crohn\x27s Disease", "Ulcerative Colitis", "IBS", "Gastroesophageal Reflux Disease (GERD)"]))),
      ("medical_images/modality", .modal "Endoscopy")] }

/-- Sixth entry of `MEDICAL_DOMAINS` (Nephrology). -/
def nephrology : Domain :=
  { name := "Nephrology"
    description := "Dataset for kidney-related diseases, focusing on renal function tests and patient demographics."
    jsd_tokens := ["renal", "kidney", "nephron", "glomerular", "dialysis", "creatinine", "egfr", "ckd", "tubular", "urinalysis", "biopsy", "transplant"]
    fields := [
      ("patient_demographics/patient_age", .info ["age", "patient_age"] "Patient\x27s age." none),
      ("lab_results/creatinine", .info ["Serum Creatinine", "Creatinine", "renal_creatinine"] "Serum creatinine level, a marker for kidney function." (some (Params.range 0.6 4.0))),
      ("lab_results/egfr", .info ["eGFR", "Estimated Glomerular Filtration Rate", "renal_egfr"] "eGFR, a key indicator of kidney health." (some (Params.range 20 110))),
      ("clinical_notes/notes", .info ["Nephrology Consult", "renal_biopsy_notes"] "Clinical notes from nephrology specialists." none),
      ("medical_condition/diagnosis", .info ["diagnosis", "Renal Disease"] "Primary diagnosis for kidney condition." (some (Params.cats ["Chronic Kidney Disease (CKD)", "Acute Kidney Injury (AKI)", "Glomerulonephritis", "Polycystic Kidney Disease"]))),
      ("medical_images/modality", .modal "Ultrasound")] }

/-- Seventh entry of `MEDICAL_DOMAINS` (Endocrinology); it has no
`medical_images/modality` entry. -/
def endocrinology : Domain :=
  { name := "Endocrinology"
    description := "Data focusing on endocrine disorders, primarily diabetes, including blood glucose levels and HbA1c measurements."
    jsd_tokens := ["endocrine", "hormone", "gland", "diabetes", "glucose", "insulin", "hba1c", "thyroid", "pituitary", "adrenal", "metabolism"]
    fields := [
      ("patient_demographics/patient_age", .info ["age", "patient_age_endo"] "Patient\x27s age." none),
      ("lab_results/hba1c", .info ["HbA1c", "Hemoglobin A1c"] "Glycated hemoglobin (HbA1c), an indicator of long-term glucose control." (some (Params.range 5.0 14.0))),
      ("lab_results/glucose", .info ["Fasting Glucose", "blood_sugar"] "Fasting blood glucose level." (some (Params.range 80 350))),
      ("clinical_notes/notes", .info ["Endocrinology Notes", "diabetes_management_plan"] "Notes related to patient\x27s endocrine health and treatment." none),
      ("medical_condition/diagnosis", .info ["diagnosis", "Endocrine Disorder"] "Primary endocrine diagnosis." (some (Params.cats ["Type 1 Diabetes", "Type 2 Diabetes", "Hypothyroidism", "Hyperthyroidism"])))] }

/-- Eighth entry of `MEDICAL_DOMAINS` (Orthopedics). -/
def orthopedics : Domain :=
  { name := "Orthopedics"
    description := "Dataset of orthopedic cases, including type of injury, surgical procedure details, and post-operative outcomes."
    jsd_tokens := ["orthopedic", "bone", "joint", "fracture", "ligament", "tendon", "arthroplasty", "fusion", "xray", "femur", "tibia", "cartilage"]
    fields := [
      ("patient_demographics/patient_age", .info ["age", "age_at_injury"] "Patient\x27s age at the time of injury." none),
      ("injury_details/body_part", .info ["Affected Body Part", "Injury Location", "body_part"] "Location of the orthopedic injury." (some (Params.cats ["Knee", "Hip", "Shoulder", "Spine", "Ankle"]))),
      ("injury_details/procedure", .info ["Surgical Procedure", "treatment", "ortho_procedure"] "The orthopedic procedure performed." (some (Params.cats ["Arthroplasty", "ACL Reconstruction", "Spinal Fusion", "Fracture Repair"]))),
      ("clinical_notes/notes", .info ["Orthopedic Surgery Notes", "post_op_report", "physio_notes"] "Surgical and post-operative physiotherapy notes." none),
      ("medical_condition/diagnosis", .info ["injury_type", "Orthopedic Diagnosis"] "Specific type of orthopedic injury or condition." (some (Params.cats ["Femur Fracture", "ACL Tear", "Rotator Cuff Tear", "Osteoarthritis"]))),
      ("medical_images/modality", .modal "X-ray")] }

/-- Ninth entry of `MEDICAL_DOMAINS` (Infectious Disease); it has no
`medical_images/modality` entry. -/
def infectiousDisease : Domain :=
  { name := "Infectious Disease"
    description := "Dataset tracking infectious diseases, including pathogen identification, patient symptoms, and treatment responses."
    jsd_tokens := ["infection", "bacteria", "virus", "antibiotic", "culture", "sepsis", "pathogen", "viral_load", "fever", "leukocyte", "resistance"]
    fields := [
      ("patient_demographics/patient_age", .info ["age", "patient_age_infection"] "Patient\x27s age." none),
      ("lab_results/pathogen", .info ["Pathogen", "Infectious Agent", "culture_result"] "The identified pathogen causing the infection." (some (Params.cats ["Staphylococcus aureus", "Influenza A", "SARS-CoV-2", "Escherichia coli"]))),
      ("clinical_notes/notes", .info ["Infectious Disease Consult", "symptom_log"] "Notes detailing patient symptoms and response to treatment." none),
      ("medical_condition/diagnosis", .info ["Infection Type", "disease"] "The specific infectious disease diagnosed." (some (Params.cats ["Influenza", "COVID-19", "Tuberculosis", "Sepsis"])))] }

/-- The `MEDICAL_DOMAINS` table (src/Mocker.py lines 37-152). -/
def MEDICAL_DOMAINS : List Domain :=
  [cardiology, neurology, oncology, pulmonology, gastroenterology,
   nephrology, endocrinology, orthopedics, infectiousDisease]

/-- Profile `Rich_MultiModal` (src/Mocker.py line 155). -/
def richMultiModal : Profile :=
  ⟨"Rich_MultiModal", .all, ["ex:", "stat:", "jsd:"], true, 10⟩

/-- Profile `Classic_Tabular_With_Stats`. -/
def classicTabular : Profile :=
  ⟨"Classic_Tabular_With_Stats", .nonImaging, ["stat:"], true, 20⟩

/-- Profile `Imaging_Only`. -/
def imagingOnly : Profile :=
  ⟨"Imaging_Only", .ids ["medical_images"], ["ex:"], true, 15⟩

/-- Profile `Text_Heavy_With_JSD`. -/
def textHeavy : Profile :=
  ⟨"Text_Heavy_With_JSD", .ids ["patient_demographics", "clinical_notes", "medical_condition"], ["jsd:", "stat:"], true, 15⟩

/-- Profile `Abbreviated_Clinical_No_Descriptions`. -/
def abbreviatedClinical : Profile :=
  ⟨"Abbreviated_Clinical_No_Descriptions", .nonImaging, [], false, 15⟩

/-- Profile `Purely_Descriptive_No_Records`. -/
def purelyDescriptive : Profile :=
  ⟨"Purely_Descriptive_No_Records", .ids [], [], true, 10⟩

/-- Profile `Minimalist_Tabular`. -/
def minimalistTabular : Profile :=
  ⟨"Minimalist_Tabular", .ids ["patient_demographics", "vital_signs", "lab_results"], [], false, 15⟩

/-- The `FINGERPRINT_PROFILES` table (src/Mocker.py lines 154-162). -/
def FINGERPRINT_PROFILES : List Profile :=
  [richMultiModal, classicTabular, imagingOnly, textHeavy,
   abbreviatedClinical, purelyDescriptive, minimalistTabular]

/-- The weighted profile bag built in `main`
(`[p for p in FINGERPRINT_PROFILES for _ in range(p["weight"])]`,
src/Mocker.py line 484). -/
def weightedProfiles : List Profile :=
  FINGERPRINT_PROFILES.flatMap (fun p => List.replicate p.weight p)

/-- The pool from which `main` draws a domain: `random.choice(MEDICAL_DOMAINS)`
(src/Mocker.py lines 518 and 533) draws uniformly from the raw, unreplicated
domain list. -/
def domainSelectionPool : List Domain :=
  MEDICAL_DOMAINS


/-- Python `int(x)` on a float: truncation toward zero. -/
def pyInt (x : ℚ) : ℤ :=
  if 0 ≤ x then ⌊x⌋ else ⌈x⌉

/-- Replace the first element of a list (`l[0] = v`). -/
def replaceHead (l : List ℚ) (v : ℚ) : List ℚ :=
  match l with
  | [] => []
  | _ :: xs => v :: xs

/-- Replace the last element of a list (`l[-1] = v`). -/
def replaceLast (l : List ℚ) (v : ℚ) : List ℚ :=
  (replaceHead l.reverse v).reverse

/-- Resolution of `params.get(key, template.get(tkey, dflt))` in
`mock_numeric_stats`: the params value wins; otherwise the template value
is used when it is a number (a non-numeric template value would make the
subsequent `random.uniform` call raise a TypeError); otherwise the
documented default. -/
def resolveNum (pv : Option ℚ) (tv : Option Json) (dflt : ℚ) :
    Except String ℚ :=
  match pv with
  | some q => .ok q
  | none =>
      match tv with
      | none => .ok dflt
      | some (.num q) => .ok q
      | some _ => .error "TypeError: unsupported operand type for uniform"

/-- Oracle for the sequence of random outcomes consumed by one call of
`mock_numeric_stats`: `t…` fields are `random.uniform` draw parameters in
`[0, 1)`, `n…` fields are `fake.random_int` / `random.randint` outcomes. -/
structure NumDraws where
  tMean : ℚ
  tMin : ℚ
  tMax : ℚ
  tShift : ℚ
  tStd : ℚ
  tSkew : ℚ
  tKurt : ℚ
  nUnique : ℤ
  nMissing : ℤ
  nBins : ℕ
  tBin : ℕ → ℚ
  nCount : ℕ → ℤ

/-- Statistics block returned by `mock_numeric_stats` (src/Mocker.py
lines 187-216): the fields are the values stored under the
`stat:`-prefixed keys of the returned dict, in assembly order. -/
structure MockNumStats where
  atType : String
  min : ℚ
  max : ℚ
  mean : ℚ
  median : ℚ
  stdDev : ℚ
  unique_count : ℤ
  missing_count : ℤ
  skewness : ℚ
  kurtosis : ℚ
  histogram : Option (List ℚ × List ℤ)
deriving DecidableEq

/-- Embedding of `mock_numeric_stats(template, params)` (src/Mocker.py
lines 187-216). `template` is the value of the node's `stat:statistics`
key; `params` is the domain field's optional params dict (`params or {}`
supplies the empty dict). The `.get` chain works only on a dict, so a
non-object template raises. Note the code never validates `max_val >
min_val`: `rand_float` accepts a reversed interval. -/
def mockNumericStats (template : Json) (params : Option Params)
    (D : NumDraws) : Except String MockNumStats := do
  let p := params.getD noParams
  match template with
  | .obj kvs => do
      let minv ← resolveNum p.min (jsonGet kvs "stat:min") 10
      let maxv ← resolveNum p.max (jsonGet kvs "stat:max") 150
      let mean := randFloat2 minv maxv D.tMean
      let smin := randFloat2 minv (minv + (maxv - minv) * 0.2) D.tMin
      let smax := randFloat2 (maxv - (maxv - minv) * 0.2) maxv D.tMax
      let median := mean + randFloat2 (-5) 5 D.tShift
      let hist ←
        if hasKey kvs "stat:histogram" then
          if D.nBins = 0 then
            throw "IndexError: list assignment index out of range"
          else do
            let draws := (List.range D.nBins).map
              (fun i => randFloat2 smin smax (D.tBin i))
            let bins1 := draws.mergeSort (fun a b => decide (a ≤ b))
            let bins2 := replaceLast (replaceHead bins1 (round2 smin)) (round2 smax)
            let bins := bins2.eraseDups.mergeSort (fun a b => decide (a ≤ b))
            let counts := if bins.length > 1 then
                (List.range (bins.length - 1)).map D.nCount
              else []
            pure (some (bins, counts))
        else pure none
      pure ⟨"stat:Statistics", smin, smax, mean, median,
            randFloat2 5 20 D.tStd, D.nUnique, D.nMissing,
            randFloat2 (-1) 1 D.tSkew, randFloat2 (-1) 1 D.tKurt, hist⟩
  | _ => .error "AttributeError: object has no attribute get"

/-- Values computed by the numeric branch of `custom_generate`
(src/dev.py lines 103-123) before the integer/float conversion: the chained
`random.uniform` draws for percentile_5, quartile_1, median, quartile_3,
percentile_95 and mean.  `u i ∈ [0, 1)` is the draw parameter of the i-th
uniform call, in source order. -/
structure DevNumeric where
  min : ℚ
  max : ℚ
  mean : ℚ
  median : ℚ
  p5 : ℚ
  q1 : ℚ
  q3 : ℚ
  p95 : ℚ

/-- Raw (unrounded) values of the dev.py numeric branch. -/
def devNumericRaw (minVal maxVal : ℚ) (u : Fin 6 → ℚ) : DevNumeric :=
  let p5 := uniformDraw minVal (minVal + (maxVal - minVal) * 0.1) (u 0)
  let q1 := uniformDraw p5 (minVal + (maxVal - minVal) * 0.3) (u 1)
  let median := uniformDraw q1 (minVal + (maxVal - minVal) * 0.6) (u 2)
  let q3 := uniformDraw median (maxVal * 0.9) (u 3)
  let p95 := uniformDraw q3 maxVal (u 4)
  let mean := uniformDraw q1 q3 (u 5)
  ⟨minVal, maxVal, mean, median, p5, q1, q3, p95⟩

/-- Float case of the dev.py numeric branch: every written value is
`round(·, 2)` of the corresponding raw value (src/dev.py lines 124-147,
`is_float = True`). -/
def devNumericFloat (minVal maxVal : ℚ) (u : Fin 6 → ℚ) : DevNumeric :=
  let s := devNumericRaw minVal maxVal u
  ⟨round2 s.min, round2 s.max, round2 s.mean, round2 s.median,
   round2 s.p5, round2 s.q1, round2 s.q3, round2 s.p95⟩

/-- Integer statistics produced by the dev.py numeric branch when the
template's `min` is an int (`is_float = False`): every written value is
`int(·)` of the corresponding raw value. -/
structure DevNumericInt where
  min : ℤ
  max : ℤ
  mean : ℤ
  median : ℤ
  p5 : ℤ
  q1 : ℤ
  q3 : ℤ
  p95 : ℤ

/-- Int case of the dev.py numeric branch (src/dev.py lines 124-147,
`is_float = False`). -/
def devNumericInt (minVal maxVal : ℤ) (u : Fin 6 → ℚ) : DevNumericInt :=
  let s := devNumericRaw (minVal : ℚ) (maxVal : ℚ) u
  ⟨pyInt s.min, pyInt s.max, pyInt s.mean, pyInt s.median,
   pyInt s.p5, pyInt s.q1, pyInt s.q3, pyInt s.p95⟩

/-- Oracle for the random outcomes consumed by `mock_categorical_stats`:
`modeIdx` is the index drawn by `random.choice(categories)`, `nFreq i` the
i-th `fake.random_int(100, 3000)` of the frequency comprehension. -/
structure CatDraws where
  modeIdx : ℕ
  nModeFreq : ℤ
  nFreq : ℕ → ℤ
  nMissing : ℤ
  tEntropy : ℚ

/-- Statistics block returned by `mock_categorical_stats` (src/Mocker.py
lines 218-235); `mode`, `mode_frequency` and `category_frequencies` are
present only when the category list is non-empty. -/
structure MockCatStats where
  atType : String
  unique_count : ℕ
  missing_count : ℤ
  mode : Option String
  mode_frequency : Option ℤ
  category_frequencies : Option (List (String × ℤ))
  entropy : ℚ
deriving DecidableEq

/-- Embedding of `mock_categorical_stats(template, params)` (src/Mocker.py
lines 218-235). When params carry no "categories" key, the code reads
`template.get("stat:statistics", {}).get("stat:category_frequencies", {})`
— note `template` is already the statistics block, so this inner lookup is
what the source really does. `unique_count` is `len(categories)` (the list
length, duplicates included). -/
def mockCategoricalStats (template : Json) (params : Option Params)
    (D : CatDraws) : Except String MockCatStats := do
  let p := params.getD noParams
  let categories ←
    match p.categories with
    | some cs => pure cs
    | none =>
        match template with
        | .obj kvs =>
            match jsonGet kvs "stat:statistics" with
            | none => pure []
            | some (.obj kvs2) =>
                match jsonGet kvs2 "stat:category_frequencies" with
                | none => pure []
                | some (.obj kvs3) => pure (kvs3.map (fun kv => kv.1))
                | some _ => throw "AttributeError: object has no attribute keys"
            | some _ => throw "AttributeError: object has no attribute get"
        | _ => .error "AttributeError: object has no attribute get"
  if categories = [] then
    pure ⟨"stat:Statistics", categories.length, D.nMissing, none, none, none,
          randFloat2 1 4 D.tEntropy⟩
  else
    pure ⟨"stat:Statistics", categories.length, D.nMissing,
          some (categories.getD D.modeIdx ""), some D.nModeFreq,
          some (pyDict (categories.enum.map (fun ic => (ic.2, D.nFreq ic.1)))),
          randFloat2 1 4 D.tEntropy⟩

/-- Oracle for the categorical branch of `custom_generate` in src/dev.py:
`nCnt k` is the `random.randint(0, 5000)` outcome written under key `k`,
`nFreq c` the `random.randint(100, 3000)` outcome for category `c`. -/
structure DevCatDraws where
  nCnt : String → ℤ
  tEnt : ℚ
  nFreq : String → ℤ

/-- Per-key rewrite of the categorical branch of `custom_generate`
(src/dev.py lines 160-171): `unique_count`, `missing_count` and
`mode_frequency` are overwritten with fresh `randint(0, 5000)` draws,
`entropy` with `round(random.uniform(0.5, 3.0), 2)`, the values of
`category_frequencies` with fresh draws keyed as in the template; every
other key — including `mode` — keeps its template value. -/
def devCatValue (stats : List (String × Json)) (D : DevCatDraws)
    (k : String) (v : Json) : Json :=
  if k = "unique_count" ∨ k = "missing_count" ∨ k = "mode_frequency" then
    .num (D.nCnt k)
  else if k = "entropy" then
    .num (round2 (uniformDraw 0.5 3.0 D.tEnt))
  else if k = "category_frequencies" then
    match jsonGet stats k with
    | some (.obj kvs) =>
        .obj (pyDict (kvs.map (fun kv => (kv.1, Json.num (D.nFreq kv.1)))))
    | _ => v
  else v

/-- The whole categorical branch: the block reached when the template
statistics dict has a `mode` key and no `min` key (src/dev.py lines
160-173): a copy of the template block with each entry rewritten by
`devCatValue`. -/
def devCategoricalBlock (stats : List (String × Json)) (D : DevCatDraws) :
    List (String × Json) :=
  stats.map (fun kv => (kv.1, devCatValue stats D kv.1 kv.2))

/-- Embedding of `_norm_dist(v)` (src/Mocker.py lines 167-169):
`s = sum(v) or 1`, then each component is `round(x / s, 6)`. -/
def normDist (v : List ℚ) : List ℚ :=
  let s := if v.sum = 0 then 1 else v.sum
  v.map (fun x => round6 (x / s))

/-- Token-distribution block returned by `mock_jsd_stats` (src/Mocker.py
lines 257-270). -/
structure JsdStats where
  total_records : ℤ
  language : String
  vocabulary_size : ℕ
  top_k_tokens : List (String × ℚ)
  token_probability_vector : List ℚ
deriving DecidableEq

/-- Embedding of `mock_jsd_stats(domain_tokens)` (src/Mocker.py lines
257-270). `fallback` is the outcome of `[fake.word() for _ in range(10)]`,
substituted only when `domain_tokens` is empty; `sample` is the outcome of
`random.sample(pool, num_tokens_to_sample)`; `rnd i` is the i-th
`random.random()` draw. `random.randint(5, min(10, len(pool)))` raises a
ValueError when `min(10, len(pool)) < 5`, i.e. whenever the pool is
non-empty with fewer than 5 tokens. -/
def mockJsdStats (domain_tokens fallback : List String)
    (sample : List String) (rnd : ℕ → ℚ) (nRecords : ℤ) :
    Except String JsdStats :=
  let pool := if domain_tokens.isEmpty then fallback else domain_tokens
  if min 10 pool.length < 5 then
    .error "ValueError: empty range for randrange"
  else
    let probs := normDist ((List.range sample.length).map rnd)
    .ok ⟨nRecords, "en", sample.length, sample.zip probs, probs⟩


/-- Python `key.startswith(p)`, computed on the character lists (the
builtin `String.startsWith` is byte-positional and does not reduce in the
kernel; this is extensionally the same function). -/
def pyStartsWith (s pre : String) : Bool :=
  pre.data.isPrefixOf s.data

/-- Python `":" in key`, computed on the character list. -/
def pyHasColon (s : String) : Bool :=
  s.data.contains ':'

/-- Key predicate of `_strip_unwanted_keys` (src/Mocker.py lines 272-281):
a key is kept unless it contains ":" and starts with none of the allowed
prefixes. -/
def keepKey (allowed : List String) (k : String) : Bool :=
  !(pyHasColon k) || allowed.any (fun p => pyStartsWith k p)

mutual

/-- Embedding of `_strip_unwanted_keys(node, allowed_prefixes)`
(src/Mocker.py lines 272-281): deletes, at every depth, each dict key that
contains ":" and starts with no allowed prefix; keeps every other key (in
order) and recurses into its value; rebuilds lists elementwise; returns
scalars unchanged. -/
def stripJson (allowed : List String) : Json → Json
  | .obj kvs => .obj (stripEntries allowed kvs)
  | .arr xs => .arr (stripArr allowed xs)
  | j => j

/-- Dict case of `_strip_unwanted_keys`. -/
def stripEntries (allowed : List String) :
    List (String × Json) → List (String × Json)
  | [] => []
  | (k, v) :: rest =>
      if keepKey allowed k then
        (k, stripJson allowed v) :: stripEntries allowed rest
      else stripEntries allowed rest

/-- List case of `_strip_unwanted_keys`. -/
def stripArr (allowed : List String) : List Json → List Json
  | [] => []
  | x :: xs => stripJson allowed x :: stripArr allowed xs

end

mutual

/-- Check that every dict key at every depth of a tree satisfies
`keepKey allowed`, i.e. every key containing ":" starts with an allowed
prefix. -/
def prunedOk (allowed : List String) : Json → Bool
  | .obj kvs => prunedEntriesOk allowed kvs
  | .arr xs => prunedArrOk allowed xs
  | _ => true

/-- Dict case of `prunedOk`. -/
def prunedEntriesOk (allowed : List String) : List (String × Json) → Bool
  | [] => true
  | (k, v) :: rest =>
      keepKey allowed k && prunedOk allowed v && prunedEntriesOk allowed rest

/-- List case of `prunedOk`. -/
def prunedArrOk (allowed : List String) : List Json → Bool
  | [] => true
  | x :: xs => prunedOk allowed x && prunedArrOk allowed xs

end

/-- Oracles standing for the randomized value synthesizers invoked by
`generate_mock_data`; each argument mirrors what the source passes
(`mock_numeric_stats(stats_template, params)` etc.). Quantifying over the
oracle output subsumes every random draw. -/
structure Synths where
  numeric : Json → Option Params → Json
  categorical : Json → Option Params → Json
  jsd : List String → Json
  image : Option FieldEntry → Json
  annotStats : Json
  datasetStats : Json

/-- Python test `"@type" in node and node["@type"] == "cr:Field"`. -/
def isCrField (kvs : List (String × Json)) : Bool :=
  jsonGet kvs "@type" = some (Json.str "cr:Field")

/-- Python `domain_fields[field_id].get("params")`: the field table entry
is usually a dict; the bare modality string of `medical_images/modality`
has no `.get`, so that entry raises. -/
def entryParams : FieldEntry → Except String (Option Params)
  | .info _ _ p => .ok p
  | .modal _ => .error "AttributeError: str object has no attribute get"

/-- The `cr:Field` branch of `generate_mock_data` (src/Mocker.py lines
287-299): when the node is a recognized field of the domain, the values
under `stat:statistics` (dispatched on `dataType`) and
`jsd:textDistribution` are replaced by synthesizer output; a field node
without `@id`, or a stats block without `dataType`, raises KeyError. -/
def genMockField (S : Synths) (d : Domain) (kvs : List (String × Json)) :
    Except String (List (String × Json)) :=
  if isCrField kvs then
    match jsonGet kvs "@id" with
    | none => .error "KeyError: @id"
    | some (.str fid) =>
        match lookupField d fid with
        | none => .ok kvs
        | some entry => do
            let params ← entryParams entry
            let kvs1 ←
              match jsonGet kvs "stat:statistics" with
              | none => pure kvs
              | some tmpl =>
                  match jsonGet kvs "dataType" with
                  | none => .error "KeyError: dataType"
                  | some dt =>
                      if dt = Json.str "sc:Integer" ∨ dt = Json.str "sc:Float" then
                        pure (setVal kvs "stat:statistics" (S.numeric tmpl params))
                      else
                        pure (setVal kvs "stat:statistics" (S.categorical tmpl params))
            let kvs2 :=
              if hasKey kvs1 "jsd:textDistribution" then
                setVal kvs1 "jsd:textDistribution" (S.jsd d.jsd_tokens)
              else kvs1
            pure kvs2
    | some _ => .ok kvs
  else .ok kvs

/-- Monadic map over dict entries: the comprehension
`{k: generate_mock_data(v, domain) for k, v in node.items()}` with the
recursive call abstracted as `g`. -/
def entriesM (g : Json → Except String Json) :
    List (String × Json) → Except String (List (String × Json))
  | [] => pure []
  | (k, v) :: rest => do
      let v' ← g v
      let rest' ← entriesM g rest
      pure ((k, v') :: rest')

/-- Monadic map over list elements: the comprehension
`[generate_mock_data(item, domain) for item in node]` with the recursive
call abstracted as `g`. -/
def arrM (g : Json → Except String Json) :
    List Json → Except String (List Json)
  | [] => pure []
  | x :: xs => do
      let x' ← g x
      let xs' ← arrM g xs
      pure (x' :: xs')

/-- The in-place replacement of the values under the three `ex:` marker
keys (`ex:imageStats`, `ex:annotationStats`, `ex:datasetStats`) when
present (src/Mocker.py lines 301-306). -/
def exMarkersSub (S : Synths) (d : Domain) (kvs : List (String × Json)) :
    List (String × Json) :=
  let kvs1 :=
    if hasKey kvs "ex:imageStats" then
      setVal kvs "ex:imageStats"
        (S.image (lookupField d "medical_images/modality"))
    else kvs
  let kvs2 :=
    if hasKey kvs1 "ex:annotationStats" then
      setVal kvs1 "ex:annotationStats" S.annotStats
    else kvs1
  if hasKey kvs2 "ex:datasetStats" then
    setVal kvs2 "ex:datasetStats" S.datasetStats
  else kvs2

/-- One unfolding of `generate_mock_data(node, domain)` (src/Mocker.py
lines 283-313) with the recursive call abstracted as `rec`: the field
branch, then the `ex:` marker replacement (`exMarkersSub`, the three
in-place assignments of lines 301-306), then the dict/list comprehension
recursing into every (possibly just substituted) child; scalars are
returned unchanged. -/
def genMockGo (S : Synths) (d : Domain) (rec : Json → Except String Json)
    (node : Json) : Except String Json :=
  match node with
  | .obj kvs => do
      let kvsF ← genMockField S d kvs
      let out ← entriesM rec (exMarkersSub S d kvsF)
      pure (.obj out)
  | .arr xs => do
      let out ← arrM rec xs
      pure (.arr out)
  | s => pure s

/-- Embedding of `generate_mock_data` itself. The source recurses on the
node as mutated (the comprehension also descends into freshly substituted
synthesizer output), so structural recursion on the input tree does not
bound it; `fuel` bounds the recursion depth instead, and any sufficiently
large value reproduces the terminating behaviour of the source. -/
def genMock (S : Synths) (d : Domain) : ℕ → Json → Except String Json
  | 0 => fun _ => .error "fuel exhausted"
  | fuel + 1 => genMockGo S d (genMock S d fuel)

/-- Whether the node (a recognized `cr:Field` whose `@id` is in the
domain's field table) is one whose statistics markers are rewritten. -/
def isRecField (d : Domain) (kvs : List (String × Json)) : Bool :=
  isCrField kvs &&
    (match jsonGet kvs "@id" with
     | some (.str fid) => (lookupField d fid).isSome
     | _ => false)

/-- The recognized marker keys at a mapping node: the three `ex:` marker
keys always, plus the two field-level marker keys when the node is a
recognized field of the domain. -/
def markerAt (d : Domain) (kvs : List (String × Json)) (k : String) : Bool :=
  (k = "ex:imageStats" || k = "ex:annotationStats" || k = "ex:datasetStats")
    || ((k = "stat:statistics" || k = "jsd:textDistribution")
          && isRecField d kvs)

mutual

/-- Structure preservation relation between a template tree and a rewritten
tree: scalars are identical; sequences have the same length with elements
related pointwise; mappings have the same keys in the same order, and every
value under a non-marker key is recursively related (values under the
marker keys recognized at that node are unconstrained: they are the
synthesizer substitutions). -/
def presJson (d : Domain) : Json → Json → Bool
  | .obj kvs, .obj kvs' => presEntries d kvs kvs kvs'
  | .arr xs, .arr ys => presArr d xs ys
  | .str a, .str b => a = b
  | .num a, .num b => a = b
  | .bool a, .bool b => a = b
  | .null, .null => true
  | _, _ => false

/-- Entrywise structure preservation; `ctx` is the full original entry
list of the enclosing mapping (marker recognition looks at the whole
node). -/
def presEntries (d : Domain) (ctx : List (String × Json)) :
    List (String × Json) → List (String × Json) → Bool
  | [], [] => true
  | (k, v) :: r, (k', v') :: r' =>
      k = k' && (markerAt d ctx k || presJson d v v') && presEntries d ctx r r'
  | _, _ => false

/-- Elementwise structure preservation for sequences. -/
def presArr (d : Domain) : List Json → List Json → Bool
  | [], [] => true
  | x :: xs, y :: ys => presJson d x y && presArr d xs ys
  | _, _ => false

end


/-- The structural prefixes appended to the profile allow-list before
pruning (src/Mocker.py line 363). -/
def structuralKeeps : List String :=
  ["sc:", "cr:", "name", "description", "@", "url", "license",
   "distribution", "recordSet", "field", "source"]

/-- The combined allow-list used for pruning: the profile's
`extensions_to_keep` followed by the structural prefixes (src/Mocker.py
lines 362-363). The source obtains the profile's list by reference and
extends it in place, so this is also the profile's new
`extensions_to_keep` after one call. -/
def allowedOf (p : Profile) : List String :=
  p.extensions_to_keep ++ structuralKeeps

/-- Python `x["@id"]` on a record-set or field node. -/
def idOf (x : Json) : Except String Json :=
  match x with
  | .obj kvs =>
      match jsonGet kvs "@id" with
      | some v => .ok v
      | none => .error "KeyError: @id"
  | _ => .error "TypeError: not subscriptable"

/-- One step of the record-set filter of `create_fingerprint`
(src/Mocker.py lines 323-329): keep the fields whose `@id` is in the
domain field table; a record set with at least one such field survives
with its field list restricted; otherwise it survives (with its fields
untouched) exactly when its `@id` is "medical_images" and the domain has a
`medical_images/modality` entry. -/
def filterRecordSet (d : Domain) (rs : Json) : Except String (Option Json) :=
  match rs with
  | .obj kvs => do
      let fields ←
        match jsonGet kvs "field" with
        | none => pure []
        | some (.arr fs) => pure fs
        | some _ => .error "TypeError: not iterable"
      let retained ← fields.filterM (fun f => do
        let idv ← idOf f
        pure (match idv with
              | .str s => (lookupField d s).isSome
              | _ => false))
      if retained ≠ [] then
        pure (some (.obj (setVal kvs "field" (.arr retained))))
      else do
        let idv ← idOf rs
        if idv = Json.str "medical_images"
            ∧ (lookupField d "medical_images/modality").isSome then
          pure (some (.obj kvs))
        else
          pure none
  | _ => .error "AttributeError: object has no attribute get"

/-- Monadic filter-map used for the record-set list. -/
def collectSome (f : Json → Except String (Option Json)) :
    List Json → Except String (List Json)
  | [] => pure []
  | x :: xs => do
      let r ← f x
      let rest ← collectSome f xs
      match r with
      | some y => pure (y :: rest)
      | none => pure rest

/-- Field relabeling of `create_fingerprint` (src/Mocker.py lines
335-341): pick one name variant via the `choose` oracle (standing for
`random.choice`), overwrite `name`, attach the domain description.
A field whose `@id` is not a key of the domain table raises KeyError, and
the bare modality string entry raises TypeError when indexed. -/
def relabelField (choose : List String → String) (d : Domain) (f : Json) :
    Except String Json :=
  match f with
  | .obj kvs =>
      match jsonGet kvs "@id" with
      | none => .error "KeyError: @id"
      | some (.str fid) =>
          match lookupField d fid with
          | some (.info variants desc _) =>
              .ok (.obj (upsertVal (upsertVal kvs "name" (.str (choose variants)))
                    "description" (.str desc)))
          | some (.modal _) =>
              .error "TypeError: string indices must be integers"
          | none => .error "KeyError: id not in domain fields"
      | some _ => .error "KeyError: id not in domain fields"
  | _ => .error "TypeError: not subscriptable"

/-- Relabeling applied to every field of one record set. -/
def relabelRecordSet (choose : List String → String) (d : Domain)
    (rs : Json) : Except String Json :=
  match rs with
  | .obj kvs =>
      match jsonGet kvs "field" with
      | none => pure rs
      | some (.arr fs) => do
          let fs' ← fs.mapM (relabelField choose d)
          pure (.obj (setVal kvs "field" (.arr fs')))
      | some _ => .error "TypeError: not iterable"
  | _ => .error "AttributeError: object has no attribute get"

/-- Record-set selection of `create_fingerprint` (src/Mocker.py lines
344-354): compute the id set of every surviving record set, intersect with
the profile selector ("all", "non_imaging" = everything but
"medical_images", or an explicit id set). -/
def profileFilterPhase (profile : Profile) (body : List (String × Json)) :
    Except String (List (String × Json)) := do
  let rsl ←
    match jsonGet body "recordSet" with
    | some (.arr l) => pure l
    | _ => .error "TypeError: not iterable"
  let allIds ← rsl.mapM idOf
  let keep : Json → Bool := fun idv =>
    match profile.record_set_ids with
    | .all => allIds.contains idv
    | .nonImaging => allIds.contains idv && !(idv = Json.str "medical_images")
    | .ids l =>
        match idv with
        | .str sid => l.contains sid
        | _ => false
  let rsl' ← rsl.filterM (fun rs => do
    let idv ← idOf rs
    pure (keep idv))
  pure (setVal body "recordSet" (.arr rsl'))

/-- Description stripping of `create_fingerprint` (src/Mocker.py lines
355-360), applied when `include_descriptions` is false: the document-level
description is set to the fixed generic sentence, then the `description`
key is popped from every record set and every field. -/
def stripDescPhase (body : List (String × Json)) :
    Except String (List (String × Json)) := do
  let body1 := upsertVal body "description"
    (.str "A minimally described dataset.")
  match jsonGet body1 "recordSet" with
  | some (.arr rsl) => do
      let rsl' ← rsl.mapM (fun rs =>
        match rs with
        | .obj kvs => do
            let kvs1 := popKey kvs "description"
            match jsonGet kvs1 "field" with
            | none => pure (Json.obj kvs1)
            | some (.arr fs) => do
                let fs' ← fs.mapM (fun f =>
                  match f with
                  | .obj fkvs => pure (Json.obj (popKey fkvs "description"))
                  | _ => Except.error "AttributeError: object has no attribute pop")
                pure (Json.obj (setVal kvs1 "field" (.arr fs')))
            | some _ => Except.error "TypeError: not iterable"
        | _ => Except.error "AttributeError: object has no attribute pop")
      pure (setVal body1 "recordSet" (.arr rsl'))
  | _ => .error "TypeError: not iterable"

/-- Extraction of `fp["data"]["rawFingerprintJson"]` as an entry list. -/
def bodyOf (fp : Json) : Except String (List (String × Json)) :=
  match fp with
  | .obj tkvs =>
      match jsonGet tkvs "data" with
      | some (.obj dkvs) =>
          match jsonGet dkvs "rawFingerprintJson" with
          | some (.obj bkvs) => .ok bkvs
          | some _ => .error "TypeError: not a dict"
          | none => .error "KeyError: rawFingerprintJson"
      | some _ => .error "TypeError: not a dict"
      | none => .error "KeyError: data"
  | _ => .error "TypeError: not subscriptable"

/-- Substitute a new body back at `fp["data"]["rawFingerprintJson"]`
(the source mutates the shared sub-object in place). -/
def withBody (fp : Json) (body : List (String × Json)) :
    Except String Json :=
  match fp with
  | .obj tkvs =>
      match jsonGet tkvs "data" with
      | some (.obj dkvs) =>
          .ok (.obj (setVal tkvs "data"
            (.obj (setVal dkvs "rawFingerprintJson" (.obj body)))))
      | _ => .error "KeyError: data"
  | _ => .error "TypeError: not subscriptable"

/-- Embedding of `create_fingerprint(template, profile, domain)`
(src/Mocker.py lines 315-368). The deep copy of the template makes the
transformation pure in the template, so it is modelled by value passing;
but line 362 takes the profile's `extensions_to_keep` list by reference
and line 363 extends it in place, mutating the shared profile
configuration, so the function returns the updated profile alongside the
fingerprint. `choose` stands for `random.choice` over name variants and
`S`/`fuel` parametrize `generate_mock_data` as in `genMock`. -/
def createFingerprint (fuel : ℕ) (S : Synths)
    (choose : List String → String) (template : Json) (profile : Profile)
    (d : Domain) : Except String (Json × Profile) := do
  let body0 ← bodyOf template
  let rsl0 ←
    match jsonGet body0 "recordSet" with
    | none => pure []
    | some (.arr l) => pure l
    | some _ => .error "TypeError: not iterable"
  let filtered ← collectSome (filterRecordSet d) rsl0
  let body1 := upsertVal body0 "recordSet" (.arr filtered)
  let relabeled ← filtered.mapM (relabelRecordSet choose d)
  let body2 := upsertVal body1 "recordSet" (.arr relabeled)
  let fpPre ← withBody template body2
  let fpMocked ← genMock S d fuel fpPre
  let body3 ← bodyOf fpMocked
  let body4 ← profileFilterPhase profile body3
  let body5 ←
    if profile.include_descriptions then pure body4
    else stripDescPhase body4
  let allowed := allowedOf profile
  let profileAfter : Profile :=
    ⟨profile.name, profile.record_set_ids, allowed,
     profile.include_descriptions, profile.weight⟩
  let body6 := stripEntries allowed body5
  let body7 := upsertVal body6 "name"
    (.str ("Mocked Dataset - " ++ d.name ++ " (" ++ profile.name ++ ")"))
  let body8 := upsertVal body7 "description" (.str d.description)
  let fpOut ← withBody fpMocked body8
  pure (fpOut, profileAfter)


/-- Ordering invariant of a rational numeric statistics block:
min ≤ percentile_5 ≤ quartile_1 ≤ median ≤ quartile_3 ≤ percentile_95 ≤ max,
with the mean also between min and max. -/
def OrderedQ (s : DevNumeric) : Prop :=
  s.min ≤ s.p5 ∧ s.p5 ≤ s.q1 ∧ s.q1 ≤ s.median ∧ s.median ≤ s.q3 ∧
  s.q3 ≤ s.p95 ∧ s.p95 ≤ s.max ∧ s.min ≤ s.mean ∧ s.mean ≤ s.max

/-- Ordering invariant of an integer numeric statistics block. -/
def OrderedZ (s : DevNumericInt) : Prop :=
  s.min ≤ s.p5 ∧ s.p5 ≤ s.q1 ∧ s.q1 ≤ s.median ∧ s.median ≤ s.q3 ∧
  s.q3 ≤ s.p95 ∧ s.p95 ≤ s.max ∧ s.min ≤ s.mean ∧ s.mean ≤ s.max

/-- Concrete stand-in for `random.choice` over name variants: pick the
first. -/
def chooseHead : List String → String := fun l => l.headD ""

/-- Synthesizer oracles producing `null` everywhere (never invoked on the
demo template below, which carries no statistics markers). -/
def synthsNull : Synths :=
  ⟨fun _ _ => Json.null, fun _ _ => Json.null, fun _ => Json.null,
   fun _ => Json.null, Json.null, Json.null⟩

/-- Synthesizer oracles with distinguishable dataset-stats output. -/
def synthsMark : Synths :=
  ⟨fun _ _ => Json.null, fun _ _ => Json.null, fun _ => Json.null,
   fun _ => Json.null, Json.num 2, Json.num 3⟩

/-- Minimal template document: one record set with one integer field
recognized by the Cardiology domain. -/
def tmplDemo : Json :=
  Json.obj [("data", Json.obj [
    ("type", Json.str "fingerprint"),
    ("rawFingerprintJson", Json.obj [
      ("name", Json.str "Template Dataset"),
      ("description", Json.str "Original template description."),
      ("recordSet", Json.arr [
        Json.obj [
          ("@id", Json.str "patient_demographics"),
          ("description", Json.str "Record set description."),
          ("field", Json.arr [
            Json.obj [
              ("@type", Json.str "cr:Field"),
              ("@id", Json.str "patient_demographics/patient_age"),
              ("name", Json.str "age"),
              ("description", Json.str "Field description."),
              ("dataType", Json.str "sc:Integer")]])]])])])]

/-- The document-level `description` value of a fingerprint. -/
def docDescription (fp : Json) : Option Json :=
  match bodyOf fp with
  | .ok b => jsonGet b "description"
  | .error _ => none

/-- Check that no record set and no field of the fingerprint body carries a
`description` key. -/
def noDescBelow (fp : Json) : Bool :=
  match bodyOf fp with
  | .error _ => false
  | .ok body =>
      match jsonGet body "recordSet" with
      | some (.arr rsl) => rsl.all (fun rs =>
          match rs with
          | .obj kvs => !(hasKey kvs "description") &&
              (match jsonGet kvs "field" with
               | some (.arr fs) => fs.all (fun f =>
                   match f with
                   | .obj fk => !(hasKey fk "description")
                   | _ => true)
               | _ => true)
          | _ => false)
      | _ => true

/-- Relation between an original dict entry and the same entry after
marker substitution: the key is unchanged and the value is either
unchanged or sits under a key recognized as a marker of the original
node `ctx`. -/
def SubstRel (d : Domain) (ctx : List (String × Json)) :
    (String × Json) → (String × Json) → Prop :=
  fun a b => b.1 = a.1 ∧ (b.2 = a.2 ∨ markerAt d ctx a.1 = true)

-- [THEOREM SECTION PLACEHOLDER]

theorem round2_mono {x y : ℚ} (h : x ≤ y) : round2 x ≤ round2 y := by
  unfold round2
  have h1 : x * 100 + 1 / 2 ≤ y * 100 + 1 / 2 := by linarith
  have h2 : (⌊x * 100 + 1 / 2⌋ : ℤ) ≤ ⌊y * 100 + 1 / 2⌋ := Int.floor_le_floor h1
  have h3 : ((⌊x * 100 + 1 / 2⌋ : ℤ) : ℚ) ≤ ((⌊y * 100 + 1 / 2⌋ : ℤ) : ℚ) := by
    exact_mod_cast h2
  linarith

theorem round6_close (x : ℚ) : |round6 x - x| ≤ 1 / 2000000 := by
  unfold round6
  have hle : ((⌊x * 1000000 + 1 / 2⌋ : ℤ) : ℚ) ≤ x * 1000000 + 1 / 2 :=
    Int.floor_le _
  have hgt : x * 1000000 + 1 / 2 - 1 < ((⌊x * 1000000 + 1 / 2⌋ : ℤ) : ℚ) :=
    Int.sub_one_lt_floor _
  rw [abs_le]
  constructor <;> [linarith; linarith]

theorem uniformDraw_left_le {a b t : ℚ} (hab : a ≤ b) (h0 : 0 ≤ t) :
    a ≤ uniformDraw a b t := by
  unfold uniformDraw
  nlinarith

theorem uniformDraw_le_right {a b t : ℚ} (hab : a ≤ b) (h1 : t ≤ 1) :
    uniformDraw a b t ≤ b := by
  unfold uniformDraw
  nlinarith

theorem uniformDraw_le_left {a b t : ℚ} (hab : b ≤ a) (h0 : 0 ≤ t) :
    uniformDraw a b t ≤ a := by
  unfold uniformDraw
  nlinarith

theorem uniformDraw_right_le {a b t : ℚ} (hab : b ≤ a) (h1 : t ≤ 1) :
    b ≤ uniformDraw a b t := by
  unfold uniformDraw
  nlinarith

theorem pyInt_mono_of_nonneg {x y : ℚ} (hx : 0 ≤ x) (hxy : x ≤ y) :
    pyInt x ≤ pyInt y := by
  unfold pyInt
  rw [if_pos hx, if_pos (le_trans hx hxy)]
  exact Int.floor_le_floor hxy

theorem devNumericRaw_chain (minV maxV : ℚ) (u : Fin 6 → ℚ)
    (h1 : 10 ≤ minV) (h2 : minV ≤ 40) (h3 : minV + 50 ≤ maxV)
    (h4 : maxV ≤ 150) (hu : ∀ i, 0 ≤ u i ∧ u i ≤ 1) :
    (devNumericRaw minV maxV u).min ≤ (devNumericRaw minV maxV u).p5 ∧
    (devNumericRaw minV maxV u).p5 ≤ (devNumericRaw minV maxV u).q1 ∧
    (devNumericRaw minV maxV u).q1 ≤ (devNumericRaw minV maxV u).median ∧
    (devNumericRaw minV maxV u).median ≤ (devNumericRaw minV maxV u).q3 ∧
    (devNumericRaw minV maxV u).q3 ≤ (devNumericRaw minV maxV u).p95 ∧
    (devNumericRaw minV maxV u).p95 ≤ (devNumericRaw minV maxV u).max ∧
    (devNumericRaw minV maxV u).q1 ≤ (devNumericRaw minV maxV u).mean ∧
    (devNumericRaw minV maxV u).mean ≤ (devNumericRaw minV maxV u).q3 := by
  have e0 : (devNumericRaw minV maxV u).min = minV := rfl
  have e9 : (devNumericRaw minV maxV u).max = maxV := rfl
  have e1 : (devNumericRaw minV maxV u).p5
      = uniformDraw minV (minV + (maxV - minV) * 0.1) (u 0) := rfl
  have e2 : (devNumericRaw minV maxV u).q1
      = uniformDraw (devNumericRaw minV maxV u).p5
          (minV + (maxV - minV) * 0.3) (u 1) := rfl
  have e3 : (devNumericRaw minV maxV u).median
      = uniformDraw (devNumericRaw minV maxV u).q1
          (minV + (maxV - minV) * 0.6) (u 2) := rfl
  have e4 : (devNumericRaw minV maxV u).q3
      = uniformDraw (devNumericRaw minV maxV u).median (maxV * 0.9) (u 3) := rfl
  have e5 : (devNumericRaw minV maxV u).p95
      = uniformDraw (devNumericRaw minV maxV u).q3 maxV (u 4) := rfl
  have e6 : (devNumericRaw minV maxV u).mean
      = uniformDraw (devNumericRaw minV maxV u).q1
          (devNumericRaw minV maxV u).q3 (u 5) := rfl
  have hr : (0 : ℚ) ≤ maxV - minV := by linarith
  have c1 : (devNumericRaw minV maxV u).min ≤ (devNumericRaw minV maxV u).p5 := by
    rw [e0, e1]
    exact uniformDraw_left_le (by nlinarith) (hu 0).1
  have up1 : (devNumericRaw minV maxV u).p5 ≤ minV + (maxV - minV) * 0.1 := by
    rw [e1]
    exact uniformDraw_le_right (by nlinarith) (hu 0).2
  have c2 : (devNumericRaw minV maxV u).p5 ≤ (devNumericRaw minV maxV u).q1 := by
    rw [e2]
    exact uniformDraw_left_le (by nlinarith) (hu 1).1
  have up2 : (devNumericRaw minV maxV u).q1 ≤ minV + (maxV - minV) * 0.3 := by
    rw [e2]
    exact uniformDraw_le_right (by nlinarith) (hu 1).2
  have c3 : (devNumericRaw minV maxV u).q1 ≤ (devNumericRaw minV maxV u).median := by
    rw [e3]
    exact uniformDraw_left_le (by nlinarith) (hu 2).1
  have up3 : (devNumericRaw minV maxV u).median ≤ minV + (maxV - minV) * 0.6 := by
    rw [e3]
    exact uniformDraw_le_right (by nlinarith) (hu 2).2
  have c4 : (devNumericRaw minV maxV u).median ≤ (devNumericRaw minV maxV u).q3 := by
    rw [e4]
    exact uniformDraw_left_le (by nlinarith) (hu 3).1
  have up4 : (devNumericRaw minV maxV u).q3 ≤ maxV * 0.9 := by
    rw [e4]
    exact uniformDraw_le_right (by nlinarith) (hu 3).2
  have c5 : (devNumericRaw minV maxV u).q3 ≤ (devNumericRaw minV maxV u).p95 := by
    rw [e5]
    exact uniformDraw_left_le (by nlinarith) (hu 4).1
  have c6 : (devNumericRaw minV maxV u).p95 ≤ (devNumericRaw minV maxV u).max := by
    rw [e5, e9]
    exact uniformDraw_le_right (by nlinarith) (hu 4).2
  have c7 : (devNumericRaw minV maxV u).q1 ≤ (devNumericRaw minV maxV u).mean := by
    rw [e6]
    exact uniformDraw_left_le (le_trans c3 c4) (hu 5).1
  have c8 : (devNumericRaw minV maxV u).mean ≤ (devNumericRaw minV maxV u).q3 := by
    rw [e6]
    exact uniformDraw_le_right (le_trans c3 c4) (hu 5).2
  exact ⟨c1, c2, c3, c4, c5, c6, c7, c8⟩

/-- C1 (amended): for the dev.py numeric synthesizer (`custom_generate`
numeric branch), with `min_val` and `max_val` drawn as in the source
(`min_val ∈ [10, 40]`, `max_val ∈ [min_val + 50, 150]`) and arbitrary
uniform draw parameters in `[0, 1]`, the produced block satisfies
min ≤ percentile_5 ≤ quartile_1 ≤ median ≤ quartile_3 ≤ percentile_95 ≤ max
with the mean also between min and max — in both the float case (values
rounded to 2 digits) and the int case (values truncated by `int`). -/
theorem c1_devNumeric_ordering (minV maxV : ℚ) (minI maxI : ℤ)
    (u v : Fin 6 → ℚ)
    (hf1 : 10 ≤ minV) (hf2 : minV ≤ 40) (hf3 : minV + 50 ≤ maxV)
    (hf4 : maxV ≤ 150) (hu : ∀ i, 0 ≤ u i ∧ u i ≤ 1)
    (hi1 : 10 ≤ minI) (hi2 : minI ≤ 40) (hi3 : minI + 50 ≤ maxI)
    (hi4 : maxI ≤ 150) (hv : ∀ i, 0 ≤ v i ∧ v i ≤ 1) :
    OrderedQ (devNumericFloat minV maxV u) ∧
    OrderedZ (devNumericInt minI maxI v) := by
  constructor
  · obtain ⟨c1, c2, c3, c4, c5, c6, c7, c8⟩ :=
      devNumericRaw_chain minV maxV u hf1 hf2 hf3 hf4 hu
    exact ⟨round2_mono c1, round2_mono c2, round2_mono c3, round2_mono c4,
           round2_mono c5, round2_mono c6,
           round2_mono (le_trans (le_trans c1 c2) c7),
           round2_mono (le_trans c8 (le_trans c5 c6))⟩
  · have hq1 : (10 : ℚ) ≤ (minI : ℚ) := by exact_mod_cast hi1
    have hq2 : (minI : ℚ) ≤ 40 := by exact_mod_cast hi2
    have hq3 : (minI : ℚ) + 50 ≤ (maxI : ℚ) := by exact_mod_cast hi3
    have hq4 : (maxI : ℚ) ≤ 150 := by exact_mod_cast hi4
    obtain ⟨c1, c2, c3, c4, c5, c6, c7, c8⟩ :=
      devNumericRaw_chain (minI : ℚ) (maxI : ℚ) v hq1 hq2 hq3 hq4 hv
    have hmin : (0 : ℚ) ≤ (devNumericRaw (minI : ℚ) (maxI : ℚ) v).min := by
      have : (devNumericRaw (minI : ℚ) (maxI : ℚ) v).min = (minI : ℚ) := rfl
      rw [this]; linarith
    have hp5 := le_trans hmin c1
    have hq1n := le_trans hp5 c2
    have hmed := le_trans hq1n c3
    have hq3n := le_trans hmed c4
    have hp95 := le_trans hq3n c5
    have hmean := le_trans hq1n c7
    exact ⟨pyInt_mono_of_nonneg hmin c1, pyInt_mono_of_nonneg hp5 c2,
           pyInt_mono_of_nonneg hq1n c3, pyInt_mono_of_nonneg hmed c4,
           pyInt_mono_of_nonneg hq3n c5, pyInt_mono_of_nonneg hp95 c6,
           pyInt_mono_of_nonneg hmin (le_trans (le_trans c1 c2) c7),
           pyInt_mono_of_nonneg hmean (le_trans c8 (le_trans c5 c6))⟩

/-- Witness for C1: the ordering theorem applied at `min_val = 10`,
`max_val = 60` with all uniform draw parameters 0, in both cases. -/
theorem c1_devNumeric_ordering_witness :
    ((10 : ℚ) ≤ 10 ∧ (10 : ℚ) + 50 ≤ 60 ∧
      (∀ i : Fin 6, 0 ≤ (fun _ : Fin 6 => (0 : ℚ)) i ∧
        (fun _ : Fin 6 => (0 : ℚ)) i ≤ 1)) ∧
    OrderedQ (devNumericFloat 10 60 (fun _ => 0)) ∧
    OrderedZ (devNumericInt 10 60 (fun _ => 0)) :=
  ⟨⟨by norm_num, by norm_num, fun _ => by norm_num⟩,
   c1_devNumeric_ordering 10 60 10 60 (fun _ => 0) (fun _ => 0)
     (by norm_num) (by norm_num) (by norm_num) (by norm_num)
     (fun _ => by norm_num)
     (by norm_num) (by norm_num) (by norm_num) (by norm_num)
     (fun _ => by norm_num)⟩

/-- Counterexample for C1 as frozen: `mock_numeric_stats` (src/Mocker.py)
is a numeric value synthesizer, and with the valid draw parameters
`t_mean = 0`, `t_min = 1` (both in `[0, 1]`) on default parameters
(min 10, max 150) it produces `stat:mean = 10 < 38 = stat:min`: the mean
does not lie between the block's min and max, so the ordering invariant
fails for this synthesizer. -/
theorem c1_mockNumeric_counterexample :
    (mockNumericStats (Json.obj []) none
        ⟨0, 1, 0, 0, 0, 0, 0, 50, 0, 0, fun _ => 0, fun _ => 0⟩).map
        (fun s => (s.mean, s.min))
      = Except.ok ((10 : ℚ), (38 : ℚ)) ∧ (10 : ℚ) < 38 := by
  constructor
  · have h : (mockNumericStats (Json.obj []) none
        ⟨0, 1, 0, 0, 0, 0, 0, 50, 0, 0, fun _ => 0, fun _ => 0⟩).map
          (fun s => (s.mean, s.min))
        = Except.ok (randFloat2 10 150 0, randFloat2 10 (10 + (150 - 10) * 0.2) 1) := rfl
    rw [h]
    norm_num [randFloat2, uniformDraw, round2]
  · norm_num

/-- C6 (amended): a numeric synthesizer given resolved parameters with
`max < min` does not reject the call: `rand_float` silently samples the
reversed interval and `mock_numeric_stats` returns a block whose
`stat:max` is at most its `stat:min` (an inverted range); and with missing
optional parameters it never fails, substituting the documented defaults. -/
theorem c6_no_rejection :
    (∀ (minP maxP : ℚ) (D : NumDraws), maxP < minP →
        0 ≤ D.tMin → D.tMin ≤ 1 → 0 ≤ D.tMax → D.tMax ≤ 1 →
        ∃ s, mockNumericStats (Json.obj [])
            (some (Params.range minP maxP)) D = Except.ok s ∧
          s.max ≤ s.min) ∧
    (∀ D : NumDraws,
        ∃ s, mockNumericStats (Json.obj []) none D = Except.ok s) := by
  constructor
  · intro minP maxP D hlt h0min h1min h0max h1max
    refine ⟨⟨"stat:Statistics",
        randFloat2 minP (minP + (maxP - minP) * 0.2) D.tMin,
        randFloat2 (maxP - (maxP - minP) * 0.2) maxP D.tMax,
        randFloat2 minP maxP D.tMean,
        randFloat2 minP maxP D.tMean + randFloat2 (-5) 5 D.tShift,
        randFloat2 5 20 D.tStd, D.nUnique, D.nMissing,
        randFloat2 (-1) 1 D.tSkew, randFloat2 (-1) 1 D.tKurt, none⟩,
      rfl, ?_⟩
    show randFloat2 (maxP - (maxP - minP) * 0.2) maxP D.tMax
        ≤ randFloat2 minP (minP + (maxP - minP) * 0.2) D.tMin
    unfold randFloat2
    apply round2_mono
    have hvmax : uniformDraw (maxP - (maxP - minP) * 0.2) maxP D.tMax
        ≤ maxP - (maxP - minP) * 0.2 :=
      uniformDraw_le_left (by nlinarith) h0max
    have hvmin : minP + (maxP - minP) * 0.2
        ≤ uniformDraw minP (minP + (maxP - minP) * 0.2) D.tMin :=
      uniformDraw_right_le (by nlinarith) h1min
    nlinarith
  · intro D
    exact ⟨⟨"stat:Statistics",
        randFloat2 10 (10 + (150 - 10) * 0.2) D.tMin,
        randFloat2 (150 - (150 - 10) * 0.2) 150 D.tMax,
        randFloat2 10 150 D.tMean,
        randFloat2 10 150 D.tMean + randFloat2 (-5) 5 D.tShift,
        randFloat2 5 20 D.tStd, D.nUnique, D.nMissing,
        randFloat2 (-1) 1 D.tSkew, randFloat2 (-1) 1 D.tKurt, none⟩, rfl⟩

/-- Witness for C6: the no-rejection theorem applied at resolved
parameters min 50, max 40 with all draws 0. -/
theorem c6_no_rejection_witness :
    ((40 : ℚ) < 50) ∧
    (∃ s, mockNumericStats (Json.obj []) (some (Params.range 50 40))
        ⟨0, 0, 0, 0, 0, 0, 0, 0, 0, 0, fun _ => 0, fun _ => 0⟩
        = Except.ok s ∧ s.max ≤ s.min) :=
  ⟨by norm_num,
   c6_no_rejection.1 50 40 ⟨0, 0, 0, 0, 0, 0, 0, 0, 0, 0, fun _ => 0, fun _ => 0⟩
     (by norm_num) (by norm_num) (by norm_num) (by norm_num) (by norm_num)⟩

/-- Counterexample for C6 as frozen: called with resolved parameters
min 50, max 40 (`max < min`) and draw parameters 0, `mock_numeric_stats`
returns normally — `stat:min = 50`, `stat:max = 42` — instead of raising
any error. -/
theorem c6_counterexample :
    (mockNumericStats (Json.obj []) (some (Params.range 50 40))
        ⟨0, 0, 0, 0, 0, 0, 0, 0, 0, 0, fun _ => 0, fun _ => 0⟩).map
        (fun s => (s.min, s.max))
      = Except.ok ((50 : ℚ), (42 : ℚ)) := by
  have h : (mockNumericStats (Json.obj []) (some (Params.range 50 40))
      ⟨0, 0, 0, 0, 0, 0, 0, 0, 0, 0, fun _ => 0, fun _ => 0⟩).map
        (fun s => (s.min, s.max))
      = Except.ok (randFloat2 50 (50 + (40 - 50) * 0.2) 0,
          randFloat2 (40 - (40 - 50) * 0.2) 40 0) := rfl
  rw [h]
  norm_num [randFloat2, uniformDraw, round2]

/-- C10 (confirmed): with a non-empty vocabulary of fewer than 5 tokens the
`randint(5, min(10, len))` range is empty and `mock_jsd_stats` raises a
ValueError instead of sampling a smaller subset; the 10-word generic
fallback is substituted only for the exactly-empty vocabulary, and then the
call succeeds. -/
theorem c10_small_vocab (dt fb sample : List String) (rnd : ℕ → ℚ)
    (nRec : ℤ) (hne : dt ≠ []) (hsmall : dt.length < 5)
    (hfb : fb.length = 10) :
    mockJsdStats dt fb sample rnd nRec
      = Except.error "ValueError: empty range for randrange" ∧
    (∃ s, mockJsdStats [] fb sample rnd nRec = Except.ok s) := by
  constructor
  · have hie : dt.isEmpty = false := by
      cases dt with
      | nil => exact absurd rfl hne
      | cons a l => rfl
    unfold mockJsdStats
    rw [hie]
    simp only [Bool.false_eq_true, if_false]
    rw [if_pos (lt_of_le_of_lt (min_le_right 10 dt.length) hsmall)]
  · refine ⟨⟨nRec, "en", sample.length,
      sample.zip (normDist ((List.range sample.length).map rnd)),
      normDist ((List.range sample.length).map rnd)⟩, ?_⟩
    unfold mockJsdStats
    simp only [List.isEmpty_nil, if_true]
    rw [hfb]
    norm_num

/-- Witness for C10: a 1-token vocabulary raises, the empty vocabulary
falls back to the 10 generic words and succeeds. -/
theorem c10_small_vocab_witness :
    ((["a"] : List String) ≠ [] ∧ (["a"] : List String).length < 5 ∧
      (["w1", "w2", "w3", "w4", "w5", "w6", "w7", "w8", "w9", "w10"] : List String).length = 10) ∧
    (mockJsdStats ["a"] ["w1", "w2", "w3", "w4", "w5", "w6", "w7", "w8", "w9", "w10"]
        [] (fun _ => 0) 0
      = Except.error "ValueError: empty range for randrange" ∧
     ∃ s, mockJsdStats [] ["w1", "w2", "w3", "w4", "w5", "w6", "w7", "w8", "w9", "w10"]
        [] (fun _ => 0) 0 = Except.ok s) :=
  ⟨⟨by decide, by decide, by decide⟩,
   c10_small_vocab ["a"] ["w1", "w2", "w3", "w4", "w5", "w6", "w7", "w8", "w9", "w10"]
     [] (fun _ => 0) 0 (by decide) (by decide) (by decide)⟩

theorem round6_sum_close (l : List ℚ) :
    |(l.map round6).sum - l.sum| ≤ l.length * (1 / 2000000) := by
  induction l with
  | nil => simp
  | cons x xs ih =>
      have hx := round6_close x
      simp only [List.map_cons, List.sum_cons, List.length_cons]
      have key : |(round6 x + (xs.map round6).sum) - (x + xs.sum)|
          ≤ |round6 x - x| + |(xs.map round6).sum - xs.sum| := by
        have harr : (round6 x + (xs.map round6).sum) - (x + xs.sum)
            = (round6 x - x) + ((xs.map round6).sum - xs.sum) := by ring
        rw [harr]
        exact abs_add _ _
      have hcast : ((xs.length + 1 : ℕ) : ℚ) = (xs.length : ℚ) + 1 := by
        push_cast
        ring
      calc |(round6 x + (xs.map round6).sum) - (x + xs.sum)|
          ≤ |round6 x - x| + |(xs.map round6).sum - xs.sum| := key
        _ ≤ 1 / 2000000 + (xs.length : ℚ) * (1 / 2000000) := by linarith
        _ = ((xs.length + 1 : ℕ) : ℚ) * (1 / 2000000) := by rw [hcast]; ring

theorem sum_pos_of_exists_pos (l : List ℚ) (hnn : ∀ x ∈ l, 0 ≤ x)
    (hex : ∃ x ∈ l, 0 < x) : 0 < l.sum := by
  induction l with
  | nil =>
      obtain ⟨x, hx, _⟩ := hex
      cases hx
  | cons a ls ih =>
      have ha : 0 ≤ a := hnn a (by simp)
      have hls : 0 ≤ ls.sum :=
        List.sum_nonneg (fun x hx => hnn x (by simp [hx]))
      obtain ⟨x, hx, hposx⟩ := hex
      rcases List.mem_cons.mp hx with rfl | hmem
      · simp only [List.sum_cons]
        linarith
      · have hrec := ih (fun y hy => hnn y (by simp [hy])) ⟨x, hmem, hposx⟩
        simp only [List.sum_cons]
        linarith

theorem sum_map_div (l : List ℚ) (S : ℚ) :
    (l.map (fun x => x / S)).sum = l.sum / S := by
  induction l with
  | nil => simp
  | cons a ls ih => simp [List.map_cons, List.sum_cons, ih, add_div]

/-- C7 (amended): whenever `mock_jsd_stats` succeeds and at least one of
the `random.random()` draws is nonzero (draws are in `[0, 1)` and cannot
all be zero except on a measure-zero event the original claim overlooked),
the reported probability vector sums to 1 within ±1e-4 (the only error is
the per-token rounding to 6 digits, at most 10·5e-7), `vocabulary_size`
equals the number of reported tokens and `top_k_tokens` has exactly that
many entries. -/
theorem c7_jsd_distribution (dt fb sample : List String) (rnd : ℕ → ℚ)
    (nRec : ℤ) (s : JsdStats)
    (hok : mockJsdStats dt fb sample rnd nRec = Except.ok s)
    (hlen : sample.length ≤ 10)
    (hnn : ∀ i, 0 ≤ rnd i)
    (hpos : ∃ i, i < sample.length ∧ 0 < rnd i) :
    |s.token_probability_vector.sum - 1| ≤ 1 / 10000 ∧
    s.vocabulary_size = s.top_k_tokens.length ∧
    s.top_k_tokens.length = sample.length ∧
    s.token_probability_vector.length = sample.length := by
  unfold mockJsdStats at hok
  by_cases hc : min 10 (if dt.isEmpty then fb else dt).length < 5
  · rw [if_pos hc] at hok
    cases hok
  · rw [if_neg hc] at hok
    injection hok with hs
    subst hs
    have hnnl : ∀ x ∈ (List.range sample.length).map rnd, 0 ≤ x := by
      intro x hx
      obtain ⟨i, _, rfl⟩ := List.mem_map.mp hx
      exact hnn i
    have hexl : ∃ x ∈ (List.range sample.length).map rnd, 0 < x := by
      obtain ⟨i, hi, hp⟩ := hpos
      exact ⟨rnd i, List.mem_map.mpr ⟨i, List.mem_range.mpr hi, rfl⟩, hp⟩
    have hS : 0 < ((List.range sample.length).map rnd).sum :=
      sum_pos_of_exists_pos _ hnnl hexl
    have hSne : ((List.range sample.length).map rnd).sum ≠ 0 := ne_of_gt hS
    have hnd : normDist ((List.range sample.length).map rnd)
        = (((List.range sample.length).map rnd).map
            (fun x => x / ((List.range sample.length).map rnd).sum)).map round6 := by
      unfold normDist
      rw [if_neg hSne]
      simp only [List.map_map]
      rfl
    have hys : (((List.range sample.length).map rnd).map
        (fun x => x / ((List.range sample.length).map rnd).sum)).sum = 1 := by
      rw [sum_map_div]
      exact div_self hSne
    have hlenx : ((List.range sample.length).map rnd).length = sample.length := by
      simp
    have happrox := round6_sum_close (((List.range sample.length).map rnd).map
        (fun x => x / ((List.range sample.length).map rnd).sum))
    rw [hys] at happrox
    have hlen3 : (((List.range sample.length).map rnd).map
        (fun x => x / ((List.range sample.length).map rnd).sum)).length
        = sample.length := by simp
    rw [hlen3] at happrox
    have hcast : (sample.length : ℚ) ≤ 10 := by exact_mod_cast hlen
    refine ⟨?_, ?_, ?_, ?_⟩
    · show |(normDist ((List.range sample.length).map rnd)).sum - 1| ≤ 1 / 10000
      rw [hnd]
      calc |((((List.range sample.length).map rnd).map
            (fun x => x / ((List.range sample.length).map rnd).sum)).map round6).sum - 1|
          ≤ (sample.length : ℚ) * (1 / 2000000) := happrox
        _ ≤ 10 * (1 / 2000000) := by nlinarith
        _ ≤ 1 / 10000 := by norm_num
    · show sample.length
        = (sample.zip (normDist ((List.range sample.length).map rnd))).length
      rw [List.length_zip, hnd]
      simp
    · show (sample.zip (normDist ((List.range sample.length).map rnd))).length
        = sample.length
      rw [List.length_zip, hnd]
      simp
    · show (normDist ((List.range sample.length).map rnd)).length = sample.length
      rw [hnd]
      simp

/-- Witness for C7: five tokens, first draw 1/2 and the rest 0; the
probability vector is exactly [1, 0, 0, 0, 0]. -/
theorem c7_jsd_distribution_witness :
    ((["t1", "t2", "t3", "t4", "t5"] : List String).length ≤ 10 ∧
      (∃ i, i < (["t1", "t2", "t3", "t4", "t5"] : List String).length ∧
        0 < (fun i : ℕ => if i = 0 then (1 : ℚ) / 2 else 0) i)) ∧
    (∃ s : JsdStats,
      mockJsdStats ["t1", "t2", "t3", "t4", "t5"] []
          ["t1", "t2", "t3", "t4", "t5"]
          (fun i => if i = 0 then (1 : ℚ) / 2 else 0) 100 = Except.ok s ∧
      |s.token_probability_vector.sum - 1| ≤ 1 / 10000 ∧
      s.vocabulary_size = s.top_k_tokens.length) := by
  constructor
  · exact ⟨by decide, 0, by decide, by norm_num⟩
  · have hok : mockJsdStats ["t1", "t2", "t3", "t4", "t5"] []
        ["t1", "t2", "t3", "t4", "t5"]
        (fun i => if i = 0 then (1 : ℚ) / 2 else 0) 100
        = Except.ok ⟨100, "en", 5,
            (["t1", "t2", "t3", "t4", "t5"] : List String).zip
              (normDist ((List.range 5).map
                (fun i => if i = 0 then (1 : ℚ) / 2 else 0))),
            normDist ((List.range 5).map
              (fun i => if i = 0 then (1 : ℚ) / 2 else 0))⟩ := rfl
    obtain ⟨h1, h2, h3, h4⟩ := c7_jsd_distribution
      ["t1", "t2", "t3", "t4", "t5"] [] ["t1", "t2", "t3", "t4", "t5"]
      (fun i => if i = 0 then (1 : ℚ) / 2 else 0) 100 _ hok
      (by decide)
      (fun i => by by_cases h : i = 0 <;> simp [h])
      ⟨0, by decide, by norm_num⟩
    exact ⟨_, hok, h1, h2⟩

/-- Counterexample for C7 as frozen: every `random.random()` draw may be
exactly 0.0 (a valid outcome in [0, 1)); then `_norm_dist`'s `sum(v) or 1`
fallback divides by 1 and the reported probability vector is all zeros,
summing to 0, not 1 ± 1e-4. -/
theorem c7_counterexample :
    (mockJsdStats ["t1", "t2", "t3", "t4", "t5"] []
        ["t1", "t2", "t3", "t4", "t5"] (fun _ => 0) 100).map
        (fun s => s.token_probability_vector)
      = Except.ok [0, 0, 0, 0, 0] ∧
    ¬ (|([(0 : ℚ), 0, 0, 0, 0].sum) - 1| ≤ 1 / 10000) := by
  constructor
  · have h : (mockJsdStats ["t1", "t2", "t3", "t4", "t5"] []
        ["t1", "t2", "t3", "t4", "t5"] (fun _ => 0) 100).map
          (fun s => s.token_probability_vector)
        = Except.ok (normDist ((List.range 5).map (fun _ => (0 : ℚ)))) := rfl
    rw [h]
    have h2 : (List.range 5).map (fun _ => (0 : ℚ)) = [0, 0, 0, 0, 0] := rfl
    rw [h2]
    norm_num [normDist, round6, List.sum_cons, List.sum_nil]
  · norm_num [List.sum_cons, List.sum_nil]

theorem hasKey_any {A : Type} (l : List (String × A)) (k : String) :
    hasKey l k = l.any (fun kv => kv.1 = k) := by
  induction l with
  | nil => rfl
  | cons a t ih =>
      by_cases h : a.1 = k
      · simp [hasKey, jsonGet, List.find?_cons_of_pos, h, List.any_cons]
      · have hfind : List.find? (fun kv : String × A => kv.1 = k) (a :: t)
            = List.find? (fun kv : String × A => kv.1 = k) t :=
          List.find?_cons_of_neg _ (by simp [h])
        simp only [hasKey, jsonGet, hfind, List.any_cons]
        simp only [hasKey, jsonGet] at ih
        simp [ih, h]

theorem upsert_not_mem {A : Type} (acc : List (String × A)) (k : String)
    (v : A) (h : hasKey acc k = false) :
    upsertVal acc k v = acc ++ [(k, v)] := by
  simp [upsertVal, h]

theorem pyDictAux_app {A : Type} (l : List (String × A)) :
    ∀ acc : List (String × A),
      (∀ kv ∈ l, hasKey acc kv.1 = false) →
      (l.map Prod.fst).Nodup →
      pyDictAux acc l = acc ++ l := by
  induction l with
  | nil => intro acc _ _; simp [pyDictAux]
  | cons a t ih =>
      intro acc hdisj hnd
      obtain ⟨k, v⟩ := a
      have hk : hasKey acc k = false := hdisj (k, v) (by simp)
      have hstep : pyDictAux acc ((k, v) :: t)
          = pyDictAux (upsertVal acc k v) t := rfl
      rw [hstep, upsert_not_mem acc k v hk]
      have hnd' : (t.map Prod.fst).Nodup := by
        simp only [List.map_cons, List.nodup_cons] at hnd
        exact hnd.2
      have hknot : k ∉ t.map Prod.fst := by
        simp only [List.map_cons, List.nodup_cons] at hnd
        exact hnd.1
      have hdisj' : ∀ kv ∈ t, hasKey (acc ++ [(k, v)]) kv.1 = false := by
        intro kv hkv
        have h1 : hasKey acc kv.1 = false := hdisj kv (by simp [hkv])
        have hne : kv.1 ≠ k := by
          intro he
          exact hknot (he ▸ List.mem_map.mpr ⟨kv, hkv, rfl⟩)
        rw [hasKey_any] at h1 ⊢
        simp only [List.any_append, h1, Bool.false_or, List.any_cons,
          List.any_nil, Bool.or_false]
        simpa using Ne.symm hne
      rw [ih (acc ++ [(k, v)]) hdisj' hnd']
      simp

theorem pyDict_self {A : Type} (l : List (String × A))
    (hnd : (l.map Prod.fst).Nodup) : pyDict l = l := by
  unfold pyDict
  rw [pyDictAux_app l [] (fun kv _ => rfl) hnd]
  simp

theorem getD_mem_of_lt (l : List String) (n : ℕ) (h : n < l.length) :
    l.getD n "" ∈ l := by
  induction l generalizing n with
  | nil => simp at h
  | cons a t ih =>
      cases n with
      | zero => simp [List.getD]
      | succ m =>
          have hm : m < t.length := by simpa using h
          have : (a :: t).getD (m + 1) "" = t.getD m "" := by
            simp [List.getD]
          rw [this]
          exact List.mem_cons_of_mem a (ih m hm)

theorem enum_build_keys (cs : List String) (f : ℕ → ℤ) :
    (cs.enum.map (fun ic => (ic.2, f ic.1))).map Prod.fst = cs := by
  rw [List.map_map]
  have hcomp : (Prod.fst ∘ fun ic : ℕ × String => (ic.2, f ic.1))
      = Prod.snd := rfl
  rw [hcomp, List.enum_map_snd]

/-- C2 (amended): `mock_categorical_stats` (src/Mocker.py) satisfies the
claim: for every non-empty, duplicate-free category set supplied in the
generation parameters (every configured category set is such), the
synthesized `mode` is a key of the synthesized `category_frequencies`
mapping and `unique_count` equals the number of its distinct keys. (The
dev.py categorical branch does not satisfy the claim: see the
counterexample.) -/
theorem c2_mockCategorical (template : Json) (cs : List String)
    (D : CatDraws) (hne : cs ≠ []) (hnd : cs.Nodup)
    (hidx : D.modeIdx < cs.length) :
    ∃ s, mockCategoricalStats template (some (Params.cats cs)) D
        = Except.ok s ∧
      ∃ fr, s.category_frequencies = some fr ∧
        (∃ m, s.mode = some m ∧ m ∈ fr.map Prod.fst) ∧
        s.unique_count = (fr.map Prod.fst).length := by
  have hkeys : (pyDict (cs.enum.map (fun ic => (ic.2, D.nFreq ic.1)))).map
      Prod.fst = cs := by
    have hb : ((cs.enum.map (fun ic => (ic.2, D.nFreq ic.1))).map
        Prod.fst).Nodup := by
      rw [enum_build_keys]
      exact hnd
    rw [pyDict_self _ hb, enum_build_keys]
  have key : mockCategoricalStats template (some (Params.cats cs)) D
      = if cs = [] then
          Except.ok ⟨"stat:Statistics", cs.length, D.nMissing, none, none,
            none, randFloat2 1 4 D.tEntropy⟩
        else
          Except.ok ⟨"stat:Statistics", cs.length, D.nMissing,
            some (cs.getD D.modeIdx ""), some D.nModeFreq,
            some (pyDict (cs.enum.map (fun ic => (ic.2, D.nFreq ic.1)))),
            randFloat2 1 4 D.tEntropy⟩ := rfl
  refine ⟨⟨"stat:Statistics", cs.length, D.nMissing,
      some (cs.getD D.modeIdx ""), some D.nModeFreq,
      some (pyDict (cs.enum.map (fun ic => (ic.2, D.nFreq ic.1)))),
      randFloat2 1 4 D.tEntropy⟩, ?_, ?_⟩
  · rw [key, if_neg hne]
  · refine ⟨_, rfl, ⟨cs.getD D.modeIdx "", rfl, ?_⟩, ?_⟩
    · rw [hkeys]
      exact getD_mem_of_lt cs D.modeIdx hidx
    · rw [hkeys]

/-- Witness for C2: the category set {"a", "b"} with mode index 0. -/
theorem c2_mockCategorical_witness :
    ((["a", "b"] : List String) ≠ [] ∧ (["a", "b"] : List String).Nodup ∧
      0 < (["a", "b"] : List String).length) ∧
    (∃ s, mockCategoricalStats (Json.obj [])
        (some (Params.cats ["a", "b"])) ⟨0, 5, fun _ => 7, 3, 0⟩
        = Except.ok s ∧
      ∃ fr, s.category_frequencies = some fr ∧
        (∃ m, s.mode = some m ∧ m ∈ fr.map Prod.fst) ∧
        s.unique_count = (fr.map Prod.fst).length) :=
  ⟨⟨by decide, by decide, by decide⟩,
   c2_mockCategorical (Json.obj []) ["a", "b"] ⟨0, 5, fun _ => 7, 3, 0⟩
     (by decide) (by decide) (by decide)⟩

/-- Counterexample for C2 as frozen: the categorical branch of dev.py's
`custom_generate` (also cited by the claim) is reached for a template
statistics block with a `mode` key and no `min` key; with the valid
`randint(0, 5000)` outcome 7 it writes `unique_count = 7` while the
synthesized `category_frequencies` has the 2 distinct keys of the
template, and `mode` is merely the template's value. -/
theorem c2_dev_counterexample :
    devCategoricalBlock
        [("mode", Json.str "a"),
         ("category_frequencies", Json.obj [("a", Json.num 1), ("b", Json.num 2)]),
         ("unique_count", Json.num 2)]
        ⟨fun _ => 7, 0, fun _ => 9⟩
      = [("mode", Json.str "a"),
         ("category_frequencies", Json.obj [("a", Json.num 9), ("b", Json.num 9)]),
         ("unique_count", Json.num 7)] ∧
    hasKey [("mode", Json.str "a"),
         ("category_frequencies", Json.obj [("a", Json.num 1), ("b", Json.num 2)]),
         ("unique_count", Json.num 2)] "min" = false ∧
    hasKey [("mode", Json.str "a"),
         ("category_frequencies", Json.obj [("a", Json.num 1), ("b", Json.num 2)]),
         ("unique_count", Json.num 2)] "mode" = true ∧
    (7 : ℚ) ≠ 2 ∧ (0 : ℤ) ≤ 7 ∧ (7 : ℤ) ≤ 5000 := by
  refine ⟨?_, by decide, by decide, by norm_num, by norm_num, by norm_num⟩
  decide

/-- C3 (amended): only the profiles are drawn through a weighted bag: the
bag replicates each profile `weight` times (so a uniform draw from it
selects each profile with probability proportional to its weight, total
100); the domains are drawn by `random.choice` from the raw
`MEDICAL_DOMAINS` list, in which every domain occurs exactly once. -/
theorem c3_weighted_selection (p : Profile) (d : Domain)
    (hp : p ∈ FINGERPRINT_PROFILES) (hd : d ∈ MEDICAL_DOMAINS) :
    weightedProfiles.count p = p.weight ∧
    weightedProfiles.length = 100 ∧
    (domainSelectionPool.map Domain.name).count d.name = 1 := by
  refine ⟨?_, by decide, ?_⟩
  · fin_cases hp <;> decide
  · fin_cases hd <;> decide

/-- Witness for C3: the first profile and the first domain. -/
theorem c3_weighted_selection_witness :
    (richMultiModal ∈ FINGERPRINT_PROFILES ∧ cardiology ∈ MEDICAL_DOMAINS) ∧
    (weightedProfiles.count richMultiModal = richMultiModal.weight ∧
     weightedProfiles.length = 100 ∧
     (domainSelectionPool.map Domain.name).count cardiology.name = 1) :=
  ⟨⟨by decide, by decide⟩,
   c3_weighted_selection richMultiModal cardiology (by decide) (by decide)⟩

/-- Counterexample for C3 as frozen: no weighted bag is built for domains —
`main` hands `random.choice` the raw domain list itself, where every
domain appears exactly once (so selection is uniform over the 9 domains),
while profiles do go through a bag in which e.g. Rich_MultiModal is
replicated 10 times. -/
theorem c3_counterexample :
    domainSelectionPool = MEDICAL_DOMAINS ∧
    MEDICAL_DOMAINS.length = 9 ∧
    (domainSelectionPool.map Domain.name).count "Cardiology" = 1 ∧
    (weightedProfiles.map Profile.name).count "Rich_MultiModal" = 10 := by
  exact ⟨rfl, by decide, by decide, by decide⟩

mutual

theorem stripJson_pruned (allowed : List String) :
    ∀ j : Json, prunedOk allowed (stripJson allowed j) = true
  | .obj kvs => by
      simp only [stripJson, prunedOk]
      exact stripEntries_pruned allowed kvs
  | .arr xs => by
      simp only [stripJson, prunedOk]
      exact stripArr_pruned allowed xs
  | .str a => rfl
  | .num a => rfl
  | .bool a => rfl
  | .null => rfl

theorem stripEntries_pruned (allowed : List String) :
    ∀ kvs : List (String × Json),
      prunedEntriesOk allowed (stripEntries allowed kvs) = true
  | [] => rfl
  | (k, v) :: rest => by
      by_cases h : keepKey allowed k = true
      · simp only [stripEntries, if_pos h, prunedEntriesOk, h,
          stripJson_pruned allowed v, stripEntries_pruned allowed rest,
          Bool.and_self]
      · simp only [stripEntries, if_neg h]
        exact stripEntries_pruned allowed rest

theorem stripArr_pruned (allowed : List String) :
    ∀ xs : List Json, prunedArrOk allowed (stripArr allowed xs) = true
  | [] => rfl
  | x :: xs => by
      simp only [stripArr, prunedArrOk, stripJson_pruned allowed x,
        stripArr_pruned allowed xs, Bool.and_self]

end

theorem stripEntries_keys (allowed : List String) :
    ∀ kvs : List (String × Json),
      (stripEntries allowed kvs).map Prod.fst
        = (kvs.filter (fun kv => keepKey allowed kv.1)).map Prod.fst
  | [] => rfl
  | (k, v) :: rest => by
      simp only [stripEntries, List.filter_cons]
      by_cases h : keepKey allowed k = true
      · simp only [if_pos h, List.map_cons, stripEntries_keys allowed rest]
      · simp only [if_neg h]
        exact stripEntries_keys allowed rest

/-- C8 (confirmed): after pruning with the allow-list that
`create_fingerprint` builds (the profile's retained prefixes followed by
the always-retained structural prefixes), every key at every depth of the
result that contains the namespace separator ":" starts with one of those
prefixes (`prunedOk` checks `keepKey` at every depth, and `keepKey` is the
disjunction "no colon or some allowed prefix"); a key without a colon is
never deleted (`keepKey` is true on it); and each mapping keeps exactly
its keys passing `keepKey`, in order. -/
theorem c8_namespace_pruning (p : Profile) (j : Json) (k : String)
    (kvs : List (String × Json)) (hk : pyHasColon k = false) :
    prunedOk (allowedOf p) (stripJson (allowedOf p) j) = true ∧
    keepKey (allowedOf p) k = true ∧
    (stripEntries (allowedOf p) kvs).map Prod.fst
      = (kvs.filter (fun kv => keepKey (allowedOf p) kv.1)).map Prod.fst := by
  refine ⟨stripJson_pruned _ j, ?_, stripEntries_keys _ kvs⟩
  simp [keepKey, hk]

/-- Witness for C8: the Text_Heavy profile's allow-list on a small tree
with a retained `stat:` key, a pruned `other:` key and a colon-free key. -/
theorem c8_namespace_pruning_witness :
    (pyHasColon "dataType" = false) ∧
    (prunedOk (allowedOf textHeavy)
        (stripJson (allowedOf textHeavy)
          (Json.obj [("stat:min", Json.null), ("other:x", Json.null),
            ("dataType", Json.obj [("pv:y", Json.null)])])) = true ∧
      keepKey (allowedOf textHeavy) "dataType" = true ∧
      (stripEntries (allowedOf textHeavy)
          [("stat:min", Json.null), ("other:x", Json.null),
           ("dataType", Json.obj [("pv:y", Json.null)])]).map Prod.fst
        = ([("stat:min", Json.null), ("other:x", Json.null),
            ("dataType", Json.obj [("pv:y", Json.null)])].filter
            (fun kv => keepKey (allowedOf textHeavy) kv.1)).map Prod.fst) :=
  ⟨by decide,
   c8_namespace_pruning textHeavy
     (Json.obj [("stat:min", Json.null), ("other:x", Json.null),
       ("dataType", Json.obj [("pv:y", Json.null)])])
     "dataType"
     [("stat:min", Json.null), ("other:x", Json.null),
      ("dataType", Json.obj [("pv:y", Json.null)])]
     (by decide)⟩

theorem except_bind_ok {E A B : Type} (a : A) (f : A → Except E B) :
    (Except.ok a >>= f) = f a := rfl

theorem except_bind_error {E A B : Type} (e : E) (f : A → Except E B) :
    ((Except.error e : Except E A) >>= f) = Except.error e := rfl

theorem except_pure_eq_ok {E A : Type} (a : A) :
    (pure a : Except E A) = Except.ok a := rfl

theorem substRel_refl (d : Domain) (ctx l : List (String × Json)) :
    List.Forall₂ (SubstRel d ctx) l l :=
  List.forall₂_same.mpr (fun x _ => ⟨rfl, Or.inl rfl⟩)

theorem substRel_trans (d : Domain) (ctx : List (String × Json)) :
    ∀ {a b c : List (String × Json)},
      List.Forall₂ (SubstRel d ctx) a b →
      List.Forall₂ (SubstRel d ctx) b c →
      List.Forall₂ (SubstRel d ctx) a c := by
  intro a b c hab hbc
  induction hab generalizing c with
  | nil =>
      cases hbc
      exact List.Forall₂.nil
  | cons hxy htail ih =>
      cases hbc with
      | cons hyz htail2 =>
          refine List.Forall₂.cons ⟨hyz.1.trans hxy.1, ?_⟩ (ih htail2)
          rcases hyz.2 with hv | hm
          · rcases hxy.2 with hv2 | hm2
            · exact Or.inl (hv.trans hv2)
            · exact Or.inr hm2
          · exact Or.inr (hxy.1 ▸ hm)

theorem setVal_substRel (d : Domain) (ctx : List (String × Json))
    (k : String) (v : Json) (hm : markerAt d ctx k = true) :
    ∀ l : List (String × Json), List.Forall₂ (SubstRel d ctx) l (setVal l k v)
  | [] => List.Forall₂.nil
  | (k1, v1) :: t => by
      have htail := setVal_substRel d ctx k v hm t
      show List.Forall₂ (SubstRel d ctx) ((k1, v1) :: t)
        ((if k1 = k then (k, v) else (k1, v1)) :: setVal t k v)
      by_cases h : k1 = k
      · rw [if_pos h]
        exact List.Forall₂.cons ⟨h.symm, Or.inr (by rw [h]; exact hm)⟩ htail
      · rw [if_neg h]
        exact List.Forall₂.cons ⟨rfl, Or.inl rfl⟩ htail

theorem ite_setVal_substRel (d : Domain) (ctx : List (String × Json))
    (k : String) (v : Json) (hm : markerAt d ctx k = true)
    (c : Prop) [Decidable c] (l : List (String × Json)) :
    List.Forall₂ (SubstRel d ctx) l (if c then setVal l k v else l) := by
  by_cases hc : c
  · rw [if_pos hc]
    exact setVal_substRel d ctx k v hm l
  · rw [if_neg hc]
    exact substRel_refl d ctx l

theorem genMockField_substRel (S : Synths) (d : Domain)
    (kvs out : List (String × Json))
    (hok : genMockField S d kvs = Except.ok out) :
    List.Forall₂ (SubstRel d kvs) kvs out := by
  unfold genMockField at hok
  by_cases hcr : isCrField kvs = true
  · rw [if_pos hcr] at hok
    split at hok
    · cases hok
    · rename_i fid hid
      split at hok
      · injection hok with h
        subst h
        exact substRel_refl d kvs kvs
      · rename_i entry hlook
        cases entry with
        | modal m =>
            simp only [entryParams] at hok
            rw [except_bind_error] at hok
            cases hok
        | info variants desc params =>
            simp only [entryParams, except_bind_ok, except_pure_eq_ok] at hok
            have hrec : isRecField d kvs = true := by
              simp [isRecField, hcr, hid, hlook]
            have hm1 : markerAt d kvs "stat:statistics" = true := by
              simp [markerAt, hrec]
            have hm2 : markerAt d kvs "jsd:textDistribution" = true := by
              simp [markerAt, hrec]
            split at hok
            · injection hok with h
              subst h
              exact ite_setVal_substRel d kvs "jsd:textDistribution"
                (S.jsd d.jsd_tokens) hm2 _ kvs
            · rename_i tmpl hst
              split at hok
              · cases hok
              · rename_i dt hdt
                split at hok
                · injection hok with h
                  subst h
                  exact substRel_trans d kvs
                    (setVal_substRel d kvs "stat:statistics"
                      (S.numeric tmpl params) hm1 kvs)
                    (ite_setVal_substRel d kvs "jsd:textDistribution"
                      (S.jsd d.jsd_tokens) hm2 _ _)
                · injection hok with h
                  subst h
                  exact substRel_trans d kvs
                    (setVal_substRel d kvs "stat:statistics"
                      (S.categorical tmpl params) hm1 kvs)
                    (ite_setVal_substRel d kvs "jsd:textDistribution"
                      (S.jsd d.jsd_tokens) hm2 _ _)
    all_goals
      injection hok with h
      subst h
      exact substRel_refl d kvs kvs
  · rw [if_neg hcr] at hok
    injection hok with h
    subst h
    exact substRel_refl d kvs kvs

theorem entriesM_rel (g : Json → Except String Json) :
    ∀ (l out : List (String × Json)),
      entriesM g l = Except.ok out →
      List.Forall₂ (fun a b : String × Json =>
        b.1 = a.1 ∧ g a.2 = Except.ok b.2) l out
  | [], out => by
      intro hok
      simp only [entriesM] at hok
      injection hok with h
      subst h
      exact List.Forall₂.nil
  | (k, v) :: rest, out => by
      intro hok
      simp only [entriesM] at hok
      cases hv : g v with
      | error e =>
          rw [hv, except_bind_error] at hok
          cases hok
      | ok v' =>
          rw [hv, except_bind_ok] at hok
          cases hr : entriesM g rest with
          | error e =>
              rw [hr, except_bind_error] at hok
              cases hok
          | ok rest' =>
              rw [hr, except_bind_ok] at hok
              injection hok with h
              subst h
              exact List.Forall₂.cons ⟨rfl, hv⟩ (entriesM_rel g rest rest' hr)

theorem arrM_rel (g : Json → Except String Json) :
    ∀ (l out : List Json),
      arrM g l = Except.ok out →
      List.Forall₂ (fun a b : Json => g a = Except.ok b) l out
  | [], out => by
      intro hok
      simp only [arrM] at hok
      injection hok with h
      subst h
      exact List.Forall₂.nil
  | x :: xs, out => by
      intro hok
      simp only [arrM] at hok
      cases hx : g x with
      | error e =>
          rw [hx, except_bind_error] at hok
          cases hok
      | ok x' =>
          rw [hx, except_bind_ok] at hok
          cases hxs : arrM g xs with
          | error e =>
              rw [hxs, except_bind_error] at hok
              cases hok
          | ok xs' =>
              rw [hxs, except_bind_ok] at hok
              injection hok with h
              subst h
              exact List.Forall₂.cons hx (arrM_rel g xs xs' hxs)

theorem presEntries_of_rels (d : Domain) (ctx : List (String × Json))
    (g : Json → Except String Json)
    (IH : ∀ v o, g v = Except.ok o → presJson d v o = true) :
    ∀ {l m out : List (String × Json)},
      List.Forall₂ (SubstRel d ctx) l m →
      List.Forall₂ (fun a b : String × Json =>
        b.1 = a.1 ∧ g a.2 = Except.ok b.2) m out →
      presEntries d ctx l out = true := by
  intro l m out hlm hmo
  induction hlm generalizing out with
  | nil =>
      cases hmo
      simp [presEntries]
  | @cons a b l1 l2 hxy htail ih =>
      cases hmo with
      | @cons _ c _ l3 hyz htail2 =>
          obtain ⟨hk1, hv1⟩ := hxy
          obtain ⟨hk2, hv2⟩ := hyz
          have hkeys : c.1 = a.1 := hk2.trans hk1
          have hval : (markerAt d ctx a.1 || presJson d a.2 c.2) = true := by
            rcases hv1 with hv | hm
            · have hpj : presJson d a.2 c.2 = true := by
                have h0 := IH b.2 c.2 hv2
                rwa [hv] at h0
              simp [hpj]
            · simp [hm]
          obtain ⟨ka, va⟩ := a
          obtain ⟨kc, vc⟩ := c
          simp only at hkeys hval
          simp only [presEntries]
          rw [hkeys]
          simp [hval, ih htail2]

theorem presArr_of_rel (d : Domain) (g : Json → Except String Json)
    (IH : ∀ v o, g v = Except.ok o → presJson d v o = true) :
    ∀ {l out : List Json},
      List.Forall₂ (fun a b : Json => g a = Except.ok b) l out →
      presArr d l out = true := by
  intro l out hrel
  induction hrel with
  | nil => simp [presArr]
  | cons hxy htail ih =>
      simp only [presArr, IH _ _ hxy, ih, Bool.and_self]

theorem exMarkersSub_substRel (S : Synths) (d : Domain)
    (ctx l : List (String × Json)) :
    List.Forall₂ (SubstRel d ctx) l (exMarkersSub S d l) := by
  have hm1 : markerAt d ctx "ex:imageStats" = true := by simp [markerAt]
  have hm2 : markerAt d ctx "ex:annotationStats" = true := by simp [markerAt]
  have hm3 : markerAt d ctx "ex:datasetStats" = true := by simp [markerAt]
  unfold exMarkersSub
  exact substRel_trans d ctx
    (substRel_trans d ctx
      (ite_setVal_substRel d ctx "ex:imageStats"
        (S.image (lookupField d "medical_images/modality")) hm1 _ l)
      (ite_setVal_substRel d ctx "ex:annotationStats" S.annotStats hm2 _ _))
    (ite_setVal_substRel d ctx "ex:datasetStats" S.datasetStats hm3 _ _)

/-- C9 (confirmed): whenever `generate_mock_data` completes, it is
structure-preserving in the sense of `presJson`: scalar nodes are returned
unchanged, sequence nodes keep order and length with each element
rewritten recursively, and mapping nodes keep their exact key list in
order, with only the values under the recognized marker keys of the node
(`markerAt`) replaced by synthesizer output (arbitrary `Synths` oracles
subsume every random draw). -/
theorem c9_structure_preserved :
    ∀ (fuel : ℕ) (S : Synths) (d : Domain) (j out : Json),
      genMock S d fuel j = Except.ok out → presJson d j out = true := by
  intro fuel
  induction fuel with
  | zero =>
      intro S d j out h
      simp only [genMock] at h
      cases h
  | succ n ih =>
      intro S d j out hok
      have hgo : genMockGo S d (genMock S d n) j = Except.ok out := hok
      cases j with
      | str a =>
          injection hgo with h
          subst h
          simp [presJson]
      | num a =>
          injection hgo with h
          subst h
          simp [presJson]
      | bool a =>
          injection hgo with h
          subst h
          simp [presJson]
      | null =>
          injection hgo with h
          subst h
          simp [presJson]
      | arr xs =>
          simp only [genMockGo] at hgo
          cases ha : arrM (genMock S d n) xs with
          | error e =>
              rw [ha, except_bind_error] at hgo
              cases hgo
          | ok ys =>
              rw [ha, except_bind_ok] at hgo
              injection hgo with h
              subst h
              simp only [presJson]
              exact presArr_of_rel d (genMock S d n)
                (fun v o hv => ih S d v o hv) (arrM_rel _ xs ys ha)
      | obj kvs =>
          simp only [genMockGo] at hgo
          cases hf : genMockField S d kvs with
          | error e =>
              rw [hf, except_bind_error] at hgo
              cases hgo
          | ok kvsF =>
              rw [hf, except_bind_ok] at hgo
              cases he : entriesM (genMock S d n) (exMarkersSub S d kvsF) with
              | error e =>
                  rw [he, except_bind_error] at hgo
                  cases hgo
              | ok entriesOut =>
                  rw [he, except_bind_ok] at hgo
                  injection hgo with h
                  subst h
                  simp only [presJson]
                  exact presEntries_of_rels d kvs (genMock S d n)
                    (fun v o hv => ih S d v o hv)
                    (substRel_trans d kvs (genMockField_substRel S d kvs kvsF hf)
                      (exMarkersSub_substRel S d kvs kvsF))
                    (entriesM_rel _ _ entriesOut he)

/-- Witness for C9: a two-key mapping with one `ex:datasetStats` marker is
rewritten into the same key list with the marker value replaced by the
oracle output and the scalar kept. -/
theorem c9_structure_preserved_witness :
    (genMock synthsMark cardiology 3
        (Json.obj [("a", Json.num 1), ("ex:datasetStats", Json.str "x")])
      = Except.ok (Json.obj [("a", Json.num 1), ("ex:datasetStats", Json.num 3)])) ∧
    presJson cardiology
        (Json.obj [("a", Json.num 1), ("ex:datasetStats", Json.str "x")])
        (Json.obj [("a", Json.num 1), ("ex:datasetStats", Json.num 3)]) = true :=
  ⟨by decide,
   c9_structure_preserved 3 synthsMark cardiology
     (Json.obj [("a", Json.num 1), ("ex:datasetStats", Json.str "x")])
     (Json.obj [("a", Json.num 1), ("ex:datasetStats", Json.num 3)])
     (by decide)⟩

/-- C4 (code_bug): with the Minimalist_Tabular profile
(`include_descriptions = False`) and the Cardiology domain on a template
with one recognized integer field, the projected output indeed carries no
`description` key on any record set or field, but the document-level
description is NOT the fixed generic sentence: line 356 of src/Mocker.py
sets "A minimally described dataset." and line 366 then unconditionally
overwrites it with the domain description, making the generic sentence a
dead store. -/
theorem c4_description_not_generic :
    (createFingerprint 20 synthsNull chooseHead tmplDemo minimalistTabular
        cardiology).map (fun r => docDescription r.1)
      = Except.ok (some (Json.str cardiology.description)) ∧
    (createFingerprint 20 synthsNull chooseHead tmplDemo minimalistTabular
        cardiology).map (fun r => noDescBelow r.1)
      = Except.ok true ∧
    cardiology.description ≠ "A minimally described dataset." ∧
    minimalistTabular.include_descriptions = false := by
  refine ⟨by decide, by decide, by decide, by decide⟩

/-- C5 (code_bug): one call of `create_fingerprint` with the
Rich_MultiModal profile mutates the static profile configuration: line 362
takes the profile's `extensions_to_keep` list by reference and line 363
extends it in place with the 11 structural prefixes, so after the call the
profile's list is no longer the configured `["ex:", "stat:", "jsd:"]`
(the deep-copied template itself is untouched, which the pure embedding
makes evident). -/
theorem c5_profile_config_mutated :
    (createFingerprint 20 synthsNull chooseHead tmplDemo richMultiModal
        cardiology).map (fun r => r.2.extensions_to_keep)
      = Except.ok (["ex:", "stat:", "jsd:"] ++ structuralKeeps) ∧
    ["ex:", "stat:", "jsd:"] ++ structuralKeeps
      ≠ richMultiModal.extensions_to_keep := by
  refine ⟨by decide, by decide⟩
